import Mathlib

/-!
Verification of the report-generation engine of the pharma-genetics business
plan backend: the Profit & Loss service (`src/services/reports/pnl.py`), the
Cashflow service (`src/services/reports/cashflow.py`) and the report routes
(`src/api/v1/reports/routes.py`), shallowly embedded in Lean 4.

Python floats are modelled as exact rationals (`ℚ`), Python `date` objects as
triples of naturals ordered lexicographically, and Python dicts (whose
insertion order the services rely on) as association lists.  Raising a
`ValidationError` is modelled by returning `Except.error`.
-/

namespace PharmaBplan

/-- A calendar date (Python `datetime.date`): year, month, day. -/
structure Date where
  year : Nat
  month : Nat
  day : Nat
deriving DecidableEq

/-- Python `date` comparison `a <= b`: lexicographic on (year, month, day). -/
def Date.leb (a b : Date) : Bool :=
  if a.year ≠ b.year then decide (a.year < b.year)
  else if a.month ≠ b.month then decide (a.month < b.month)
  else decide (a.day ≤ b.day)

/-- Python `date` comparison `a < b`. -/
def Date.ltb (a b : Date) : Bool :=
  if a.year ≠ b.year then decide (a.year < b.year)
  else if a.month ≠ b.month then decide (a.month < b.month)
  else decide (a.day < b.day)

/-- A well-formed date has a month in 1..12 (Python `date` cannot be built
otherwise; the constructor would raise). -/
def Date.Valid (d : Date) : Prop := 1 ≤ d.month ∧ d.month ≤ 12

instance (d : Date) : Decidable d.Valid := by
  unfold Date.Valid; infer_instance

/-- Left-pad a natural to two digits (as in `date.isoformat`). -/
def pad2 (n : Nat) : String := (if n < 10 then "0" else "") ++ toString n

/-- Left-pad a natural to four digits (as in `date.isoformat`). -/
def pad4 (n : Nat) : String :=
  (if n < 10 then "000" else if n < 100 then "00" else if n < 1000 then "0" else "")
    ++ toString n

/-- Python `date.isoformat()`: `YYYY-MM-DD`. -/
def Date.isoformat (d : Date) : String :=
  pad4 d.year ++ "-" ++ pad2 d.month ++ "-" ++ pad2 d.day

/-- Model of the Python `ValidationError` exception raised by the services:
a detail message plus a context dictionary (values rendered as strings). -/
structure ValidationError where
  detail : String
  context : List (String × String)
deriving DecidableEq

instance {ε α : Type} [DecidableEq ε] [DecidableEq α] :
    DecidableEq (Except ε α) := fun a b =>
  match a, b with
  | .error x, .error y =>
    if h : x = y then .isTrue (by rw [h])
    else .isFalse (by intro hc; cases hc; exact h rfl)
  | .error _, .ok _ => .isFalse (by intro hc; cases hc)
  | .ok _, .error _ => .isFalse (by intro hc; cases hc)
  | .ok x, .ok y =>
    if h : x = y then .isTrue (by rw [h])
    else .isFalse (by intro hc; cases hc; exact h rfl)

/-- The signed month difference `(end.year - start.year) * 12 + (end.month -
start.month)` computed by `validate_date_range` (Python ints, hence `ℤ`). -/
def months_between (start_date end_date : Date) : Int :=
  ((end_date.year : Int) - (start_date.year : Int)) * 12 +
    ((end_date.month : Int) - (start_date.month : Int))

/-- `ProfitAndLossService.validate_date_range` (pnl.py lines 45-78; the
cashflow copy at cashflow.py lines 43-76 is textually identical): error when
`start_date > end_date`, then error when the month difference exceeds 12,
otherwise return `None`. -/
def validate_date_range (start_date end_date : Date) : Except ValidationError Unit :=
  if Date.ltb end_date start_date then
    .error { detail := "start_date cannot be after end_date",
             context := [("start_date", start_date.isoformat),
                         ("end_date", end_date.isoformat)] }
  else
    if months_between start_date end_date > 12 then
      .error { detail := "Date range cannot exceed 12 months",
               context := [("start_date", start_date.isoformat),
                           ("end_date", end_date.isoformat),
                           ("months_difference",
                            toString (months_between start_date end_date)),
                           ("max_allowed_months", "12")] }
    else .ok ()

/-- Lowercase three-letter month name, as produced by
`strftime('%b').lower()` in the C locale (months numbered 1..12). -/
def monthAbbrev : Nat → String
  | 1 => "jan" | 2 => "feb" | 3 => "mar" | 4 => "apr"
  | 5 => "may" | 6 => "jun" | 7 => "jul" | 8 => "aug"
  | 9 => "sep" | 10 => "oct" | 11 => "nov" | 12 => "dec"
  | _ => ""

/-- Two-digit year, as produced by `strftime('%y')`: year mod 100, zero
padded. -/
def twoDigitYear (y : Nat) : String := pad2 (y % 100)

/-- Index of a calendar month on the absolute month axis: stepping a date one
calendar month forward (the loop body of `generate_monthly_periods`)
increments this index by one, and comparison of first-of-month dates agrees
with comparison of indices. -/
def monthIdx (d : Date) : Nat := d.year * 12 + (d.month - 1)

/-- The label `strftime('%b-%y').lower()` of the month with absolute index
`idx`. -/
def periodLabelOfIdx (idx : Nat) : String :=
  monthAbbrev (idx % 12 + 1) ++ "-" ++ twoDigitYear (idx / 12)

/-- The `while current <= end` loop of `generate_monthly_periods`
(pnl.py lines 207-221), with the running first-of-month date `current`
represented by its absolute month index and the loop driven by its
iteration count `endIdx + 1 - cur` (zero when `cur > endIdx`, i.e. when the
loop guard fails immediately). -/
def genPeriodsAux : Nat → Nat → List String
  | 0, _ => []
  | n + 1, cur => periodLabelOfIdx cur :: genPeriodsAux n (cur + 1)

/-- `ProfitAndLossService.generate_monthly_periods` (pnl.py lines 196-221;
identical copy in cashflow.py): month labels from the first day of
`start_date`'s month to the first day of `end_date`'s month inclusive. -/
def generate_monthly_periods (start_date end_date : Date) : List String :=
  genPeriodsAux (monthIdx end_date + 1 - monthIdx start_date) (monthIdx start_date)

/-- The period list planned by `generate_pnl_report` /
`generate_cashflow_report` (pnl.py lines 411-415): `["Total"]` for yearly,
`generate_monthly_periods` for monthly.  This is the spec's
`build_periods(start, end, granularity)`. -/
def build_periods (start_date end_date : Date) (granularity : String) : List String :=
  if granularity = "yearly" then ["Total"]
  else generate_monthly_periods start_date end_date

/-- `ProfitAndLossService.assign_period` (pnl.py lines 223-238; identical
copy in cashflow.py): `"Total"` for yearly, else the record's own month
label `doc_date.strftime('%b-%y').lower()`.  The `periods` argument is
accepted and ignored, exactly as in the source. -/
def assign_period (doc_date : Date) (format_type : String) (_periods : List String) : String :=
  if format_type = "yearly" then "Total"
  else monthAbbrev doc_date.month ++ "-" ++ twoDigitYear doc_date.year

/-- Expense classification (`ExpenseType` enum in the models). -/
inductive ExpenseType | COGS | OPEX | CAPEX
deriving DecidableEq

/-- One income row as returned by `get_income_data` in either service: the
P&L service selects `amount` (net of VAT), the cashflow service selects
`grand_total` (VAT inclusive); we carry both columns on one record. -/
structure IncomeRecord where
  customer : String
  doc_date : Date
  amount : ℚ
  grand_total : ℚ
  location : String
deriving DecidableEq

/-- One expense row as returned by `get_expense_data`, pre-joined with its
category: `category_name` is the category's own name and `parent_category`
the parent category's name, or `none` at a root category.  The dataframe
column `is_subcategory = parent_id.notna()` is `parent_category.isSome`
here (the SQL join guarantees the parent id, when present, resolves to a
category row). -/
structure ExpenseRecord where
  doc_date : Date
  amount : ℚ
  grand_total : ℚ
  etype : ExpenseType
  location : String
  category_name : String
  parent_category : Option String
deriving DecidableEq

/-- The database contents visible to the two read-only fetchers. -/
structure Storage where
  incomes : List IncomeRecord
  expenses : List ExpenseRecord
deriving DecidableEq

/-- `get_income_data` (pnl.py lines 80-117 / cashflow.py lines 78-114):
rows with `start_date <= doc_date <= end_date`, restricted to `location`
when a filter is supplied. -/
def get_income_data (st : Storage) (start_date end_date : Date)
    (location : Option String) : List IncomeRecord :=
  st.incomes.filter (fun r =>
    Date.leb start_date r.doc_date && Date.leb r.doc_date end_date &&
      (match location with | none => true | some loc => r.location == loc))

/-- `get_expense_data` (pnl.py lines 119-194 / cashflow.py lines 116-191):
rows joined with their category, date- and location-filtered, and restricted
to the requested expense types when given. -/
def get_expense_data (st : Storage) (start_date end_date : Date)
    (location : Option String) (expense_types : Option (List ExpenseType)) :
    List ExpenseRecord :=
  st.expenses.filter (fun r =>
    Date.leb start_date r.doc_date && Date.leb r.doc_date end_date &&
      (match location with | none => true | some loc => r.location == loc) &&
      (match expense_types with | none => true | some ts => ts.contains r.etype))

/-- `pandas.Series.unique()`: the distinct values of a column in order of
first appearance. -/
def uniques {α : Type} [DecidableEq α] (l : List α) : List α :=
  l.foldl (fun acc x => if x ∈ acc then acc else acc ++ [x]) []

/-- The idiom `period_totals = group.groupby('period')[col].sum().to_dict()`
followed by `{period: period_totals.get(period, 0.0) for period in periods}`:
for each planned period, the sum of `value` over the rows of the group whose
assigned period equals it (0.0 when none do). -/
def periodFillBy {α : Type} (value : α → ℚ) (dateOf : α → Date)
    (rows : List α) (format_type : String) (periods : List String) :
    List (String × ℚ) :=
  periods.map (fun p =>
    (p, ((rows.filter
            (fun r => assign_period (dateOf r) format_type periods = p)).map
          value).sum))

/-- The `revenue` section of the P&L report. -/
structure RevenueSection where
  revenue_by_customer : List (String × List (String × ℚ))
  total_net_revenue : List (String × ℚ)
deriving DecidableEq

/-- `ProfitAndLossService.build_revenue_section` (pnl.py lines 240-285). -/
def build_revenue_section (income_df : List IncomeRecord)
    (format_type : String) (periods : List String) : RevenueSection :=
  if income_df.isEmpty then
    { revenue_by_customer := [],
      total_net_revenue := periods.map (fun p => (p, (0 : ℚ))) }
  else
    { revenue_by_customer :=
        (uniques (income_df.map (·.customer))).map (fun customer =>
          (customer,
           periodFillBy (·.amount) (·.doc_date)
             (income_df.filter (fun r => r.customer = customer))
             format_type periods)),
      total_net_revenue :=
        periodFillBy (·.amount) (·.doc_date) income_df format_type periods }

/-- One value of `expenses_by_category`: the per-period sums of each
subcategory, plus a `direct` block present exactly when the source added the
`'direct'` key. -/
structure CategoryData where
  subcategories : List (String × List (String × ℚ))
  direct : Option (List (String × ℚ))
deriving DecidableEq

/-- The value returned by `build_expense_section` (P&L) and
`build_outflows_section` (cashflow). -/
structure ExpenseSection where
  expenses_by_category : List (String × CategoryData)
  total : List (String × ℚ)
deriving DecidableEq

/-- Common body of `ProfitAndLossService.build_expense_section`
(pnl.py lines 287-377) and `CashflowService.build_outflows_section`
(cashflow.py lines 285-374); the two Python functions are textually
identical except that the P&L sums the `amount` column and the cashflow the
`grand_total` column, abstracted here as `value`. -/
def build_section_core (value : ExpenseRecord → ℚ)
    (expense_df : List ExpenseRecord) (format_type : String)
    (periods : List String) : ExpenseSection :=
  if expense_df.isEmpty then
    { expenses_by_category := [],
      total := periods.map (fun p => (p, (0 : ℚ))) }
  else
    let fill := fun rows => periodFillBy value (·.doc_date) rows format_type periods
    let parent_categories := uniques (expense_df.filterMap (·.parent_category))
    let parentEntries := parent_categories.map (fun parent_cat =>
      let subcategories := uniques
        ((expense_df.filter
            (fun r => r.parent_category = some parent_cat)).map (·.category_name))
      let subEntries := subcategories.map (fun subcat =>
        (subcat,
         fill (expense_df.filter
           (fun r => r.category_name = subcat ∧ r.parent_category = some parent_cat))))
      let parent_direct := expense_df.filter
        (fun r => r.category_name = parent_cat ∧ r.parent_category = none)
      (parent_cat,
       { subcategories := subEntries,
         direct := if parent_direct.isEmpty then none else some (fill parent_direct)
         : CategoryData }))
    let orphan_categories := uniques
      ((expense_df.filter (fun r => r.parent_category = none)).map (·.category_name))
    let orphanEntries :=
      (orphan_categories.filter (fun c => c ∉ parent_categories)).map (fun orphan_cat =>
        (orphan_cat,
         { subcategories := [],
           direct := some (fill
             (expense_df.filter (fun r => r.category_name = orphan_cat)))
           : CategoryData }))
    { expenses_by_category := parentEntries ++ orphanEntries,
      total := fill expense_df }

/-- `ProfitAndLossService.build_expense_section`: sums the net `amount`. -/
def build_expense_section (expense_df : List ExpenseRecord)
    (format_type : String) (periods : List String) : ExpenseSection :=
  build_section_core (·.amount) expense_df format_type periods

/-- `CashflowService.build_outflows_section`: sums the VAT-inclusive
`grand_total`. -/
def build_outflows_section (expense_df : List ExpenseRecord)
    (format_type : String) (periods : List String) : ExpenseSection :=
  build_section_core (·.grand_total) expense_df format_type periods

/-- Report metadata (`report_info`); the wall-clock `generated_at` field is
outside the embedding. -/
structure ReportInfo where
  start_date : Date
  end_date : Date
  format : String
  location : String
  periods : List String
deriving DecidableEq

/-- The complete P&L report returned by `generate_pnl_report`. -/
structure PnLReport where
  report_info : ReportInfo
  revenue : RevenueSection
  cogs : ExpenseSection
  gross_profit : List (String × ℚ)
  operating_expenses : ExpenseSection
  ebit : List (String × ℚ)
  income_tax : List (String × ℚ)
  net_earnings : List (String × ℚ)
deriving DecidableEq

/-- `ProfitAndLossService.TAX_RATE`: `Decimal("0.15")`. -/
def TAX_RATE : ℚ := 15 / 100

/-- The Python `location or 'All'` used when assembling `report_info`
(`None` and the empty string are falsy). -/
def locationOrAll (location : Option String) : String :=
  match location with
  | none => "All"
  | some s => if s = "" then "All" else s

/-- The success path of `generate_pnl_report` (pnl.py lines 408-476, after
both validations have passed): resolve the `'All'` location to no filter,
plan the periods, fetch income / COGS / OPEX, build the three sections, and
derive gross profit, EBIT, income tax and net earnings per period. -/
def pnl_report_body (st : Storage) (start_date end_date : Date)
    (format_type : String) (location : Option String) : PnLReport :=
  let location_filter := if location = some "All" then none else location
  let periods := build_periods start_date end_date format_type
  let income_df := get_income_data st start_date end_date location_filter
  let cogs_df := get_expense_data st start_date end_date location_filter
    (some [ExpenseType.COGS])
  let opex_df := get_expense_data st start_date end_date location_filter
    (some [ExpenseType.OPEX])
  let revenue_section := build_revenue_section income_df format_type periods
  let cogs_section := build_expense_section cogs_df format_type periods
  let opex_section := build_expense_section opex_df format_type periods
  let total_revenue := revenue_section.total_net_revenue
  let total_cogs := cogs_section.total
  let total_opex := opex_section.total
  let gross_profit := periods.map (fun p =>
    (p, (total_revenue.lookup p).getD 0 - (total_cogs.lookup p).getD 0))
  let ebit := periods.map (fun p =>
    (p, (gross_profit.lookup p).getD 0 - (total_opex.lookup p).getD 0))
  let income_tax := periods.map (fun p =>
    (p, max 0 ((ebit.lookup p).getD 0 * TAX_RATE)))
  let net_earnings := periods.map (fun p =>
    (p, (ebit.lookup p).getD 0 - (income_tax.lookup p).getD 0))
  { report_info := { start_date := start_date, end_date := end_date,
                     format := format_type,
                     location := locationOrAll location,
                     periods := periods },
    revenue := revenue_section,
    cogs := cogs_section,
    gross_profit := gross_profit,
    operating_expenses := opex_section,
    ebit := ebit,
    income_tax := income_tax,
    net_earnings := net_earnings }

/-- `ProfitAndLossService.generate_pnl_report` (pnl.py lines 379-476):
validate the date range, validate the format, then run the success path.
Both validations happen before any data access. -/
def generate_pnl_report (st : Storage) (start_date end_date : Date)
    (format_type : String) (location : Option String) :
    Except ValidationError PnLReport :=
  match validate_date_range start_date end_date with
  | .error err => .error err
  | .ok _ =>
    if format_type = "yearly" ∨ format_type = "monthly" then
      .ok (pnl_report_body st start_date end_date format_type location)
    else
      .error { detail := "Invalid format. Must be 'yearly' or 'monthly'",
               context := [("provided_format", format_type)] }

/-- The `cash_inflows` section of the cashflow report. -/
structure InflowsSection where
  sales_income : List (String × ℚ)
  fundings : List (String × ℚ)
  other_income : List (String × ℚ)
  total_inflows : List (String × ℚ)
deriving DecidableEq

/-- `CashflowService.build_inflows_section` (cashflow.py lines 237-283). -/
def build_inflows_section (income_df : List IncomeRecord)
    (format_type : String) (periods : List String) : InflowsSection :=
  let sales_income :=
    if income_df.isEmpty then periods.map (fun p => (p, (0 : ℚ)))
    else periodFillBy (·.grand_total) (·.doc_date) income_df format_type periods
  let fundings := periods.map (fun p => (p, (0 : ℚ)))
  let other_income := periods.map (fun p => (p, (0 : ℚ)))
  let total_inflows := periods.map (fun p =>
    (p, (sales_income.lookup p).getD 0 + (fundings.lookup p).getD 0 +
        (other_income.lookup p).getD 0))
  { sales_income := sales_income, fundings := fundings,
    other_income := other_income, total_inflows := total_inflows }

/-- The `cash_outflows` block of the cashflow report. -/
structure CashOutflows where
  cogs : ExpenseSection
  opex : ExpenseSection
  capex : ExpenseSection
  total_outflows : List (String × ℚ)
deriving DecidableEq

/-- The complete cashflow report returned by `generate_cashflow_report`. -/
structure CashflowReport where
  report_info : ReportInfo
  cash_inflows : InflowsSection
  cash_outflows : CashOutflows
  net_cashflow : List (String × ℚ)
  opening_balance : List (String × ℚ)
  closing_balance : List (String × ℚ)
deriving DecidableEq

/-- The `for period in periods` balance loop of `generate_cashflow_report`
(cashflow.py lines 464-471), carried out by a left fold whose state is the
running `cumulative_balance` together with the opening and closing
association lists built so far. -/
def balanceFold (net_cashflow : List (String × ℚ)) (opening_balance : ℚ)
    (periods : List String) : ℚ × List (String × ℚ) × List (String × ℚ) :=
  periods.foldl (fun acc p =>
    let cum := acc.1
    let cum' := cum + (net_cashflow.lookup p).getD 0
    (cum', acc.2.1 ++ [(p, cum)], acc.2.2 ++ [(p, cum')]))
    (opening_balance, [], [])

/-- The success path of `generate_cashflow_report` (cashflow.py lines
407-492, after both validations have passed). -/
def cashflow_report_body (st : Storage) (start_date end_date : Date)
    (format_type : String) (location : Option String)
    (opening_balance : ℚ) : CashflowReport :=
  let location_filter := if location = some "All" then none else location
  let periods := build_periods start_date end_date format_type
  let income_df := get_income_data st start_date end_date location_filter
  let cogs_df := get_expense_data st start_date end_date location_filter
    (some [ExpenseType.COGS])
  let opex_df := get_expense_data st start_date end_date location_filter
    (some [ExpenseType.OPEX])
  let capex_df := get_expense_data st start_date end_date location_filter
    (some [ExpenseType.CAPEX])
  let inflows := build_inflows_section income_df format_type periods
  let cogs_section := build_outflows_section cogs_df format_type periods
  let opex_section := build_outflows_section opex_df format_type periods
  let capex_section := build_outflows_section capex_df format_type periods
  let total_inflows := inflows.total_inflows
  let total_cogs := cogs_section.total
  let total_opex := opex_section.total
  let total_capex := capex_section.total
  let total_outflows := periods.map (fun p =>
    (p, (total_cogs.lookup p).getD 0 + (total_opex.lookup p).getD 0 +
        (total_capex.lookup p).getD 0))
  let net_cashflow := periods.map (fun p =>
    (p, (total_inflows.lookup p).getD 0 - (total_outflows.lookup p).getD 0))
  let balances :=
    if format_type = "yearly" then
      ([("Total", opening_balance)],
       [("Total", opening_balance + (net_cashflow.lookup "Total").getD 0)])
    else
      let folded := balanceFold net_cashflow opening_balance periods
      (folded.2.1, folded.2.2)
  { report_info := { start_date := start_date, end_date := end_date,
                     format := format_type,
                     location := locationOrAll location,
                     periods := periods },
    cash_inflows := inflows,
    cash_outflows := { cogs := cogs_section, opex := opex_section,
                       capex := capex_section,
                       total_outflows := total_outflows },
    net_cashflow := net_cashflow,
    opening_balance := balances.1,
    closing_balance := balances.2 }

/-- `CashflowService.generate_cashflow_report` (cashflow.py lines 376-492):
validate the date range, validate the format, then run the success path. -/
def generate_cashflow_report (st : Storage) (start_date end_date : Date)
    (format_type : String) (location : Option String)
    (opening_balance : ℚ) : Except ValidationError CashflowReport :=
  match validate_date_range start_date end_date with
  | .error err => .error err
  | .ok _ =>
    if format_type = "yearly" ∨ format_type = "monthly" then
      .ok (cashflow_report_body st start_date end_date format_type location
            opening_balance)
    else
      .error { detail := "Invalid format. Must be 'yearly' or 'monthly'",
               context := [("provided_format", format_type)] }

/-- Splitting a character list at `'/'` separators (the effect of the
`%d/%m/%Y` pattern cutting the input into three slash-separated tokens). -/
def splitSlashAux : List Char → List Char → List (List Char)
  | [], acc => [acc.reverse]
  | c :: cs, acc =>
    if c = '/' then acc.reverse :: splitSlashAux cs []
    else splitSlashAux cs (c :: acc)

/-- Numeric value of a digit token (the `int(...)` applied by `strptime` to
each captured group). -/
def digitsVal (cs : List Char) : Nat :=
  cs.foldl (fun n c => n * 10 + (c.toNat - 48)) 0

/-- Whether every character of the token is an ASCII digit. -/
def allDigits (cs : List Char) : Bool := cs.all (·.isDigit)

/-- Gregorian leap year, as in Python's `datetime`. -/
def isLeap (y : Nat) : Bool := y % 4 == 0 && (y % 100 != 0 || y % 400 == 0)

/-- Days in a month, as validated by the Python `date` constructor. -/
def daysInMonth (y m : Nat) : Nat :=
  if m = 2 then (if isLeap y then 29 else 28)
  else if m = 4 ∨ m = 6 ∨ m = 9 ∨ m = 11 then 30
  else 31

/-- Model of `datetime.strptime(date_str, "%d/%m/%Y").date()` restricted to
ASCII digits: the string must be three `/`-separated tokens matching the
`%d` pattern (one or two digits, value 1..31), the `%m` pattern (one or two
digits, value 1..12) and the `%Y` pattern (exactly four digits), and the
resulting (year, month, day) must be a constructible `date` (year ≥ 1, day
within the month); otherwise `strptime` raises `ValueError`, modelled as
`none`. -/
def strptime_dd_mm_yyyy (s : String) : Option Date :=
  match splitSlashAux s.toList [] with
  | [ds, ms, ys] =>
    if allDigits ds && decide (1 ≤ ds.length) && decide (ds.length ≤ 2) &&
       allDigits ms && decide (1 ≤ ms.length) && decide (ms.length ≤ 2) &&
       allDigits ys && decide (ys.length = 4) then
      let d := digitsVal ds
      let m := digitsVal ms
      let y := digitsVal ys
      if decide (1 ≤ d) && decide (1 ≤ m) && decide (m ≤ 12) &&
         decide (1 ≤ y) && decide (d ≤ daysInMonth y m) then
        some { year := y, month := m, day := d }
      else none
    else none
  | _ => none

/-- `parse_date_dd_mm_yyyy` (routes.py lines 17-29): `None` passes through;
a string either parses as `DD/MM/YYYY` or raises a `ValidationError` naming
the provided value and the expected format. -/
def parse_date_dd_mm_yyyy (date_str : Option String) :
    Except ValidationError (Option Date) :=
  match date_str with
  | none => .ok none
  | some s =>
    match strptime_dd_mm_yyyy s with
    | some d => .ok (some d)
    | none =>
      .error { detail := "Invalid date format: '" ++ s ++
                 "'. Expected DD/MM/YYYY (e.g., 25/12/2025)",
               context := [("provided_value", s),
                           ("expected_format", "DD/MM/YYYY")] }

/-- The route's `location if location else 'All'` (routes.py line 99). -/
def routeLocation (location : Option String) : String :=
  match location with
  | none => "All"
  | some l => if l = "" then "All" else l

/-- `get_profit_and_loss_report` (routes.py lines 32-118): parse both
boundary dates, then delegate to the P&L service.  The `not start_date_obj`
re-check is kept although it is unreachable for string inputs. -/
def get_profit_and_loss_report (st : Storage) (start_date end_date : String)
    (format : String) (location : Option String) :
    Except ValidationError PnLReport :=
  match parse_date_dd_mm_yyyy (some start_date) with
  | .error e => .error e
  | .ok none =>
    .error { detail := "Both start_date and end_date are required",
             context := [("start_date", start_date), ("end_date", end_date)] }
  | .ok (some start_date_obj) =>
    match parse_date_dd_mm_yyyy (some end_date) with
    | .error e => .error e
    | .ok none =>
      .error { detail := "Both start_date and end_date are required",
               context := [("start_date", start_date), ("end_date", end_date)] }
    | .ok (some end_date_obj) =>
      generate_pnl_report st start_date_obj end_date_obj format
        (some (routeLocation location))

/-- `get_cashflow_report` (routes.py lines 121-213). -/
def get_cashflow_report (st : Storage) (start_date end_date : String)
    (format : String) (location : Option String) (opening_balance : ℚ) :
    Except ValidationError CashflowReport :=
  match parse_date_dd_mm_yyyy (some start_date) with
  | .error e => .error e
  | .ok none =>
    .error { detail := "Both start_date and end_date are required",
             context := [("start_date", start_date), ("end_date", end_date)] }
  | .ok (some start_date_obj) =>
    match parse_date_dd_mm_yyyy (some end_date) with
    | .error e => .error e
    | .ok none =>
      .error { detail := "Both start_date and end_date are required",
               context := [("start_date", start_date), ("end_date", end_date)] }
    | .ok (some end_date_obj) =>
      generate_cashflow_report st start_date_obj end_date_obj format
        (some (routeLocation location)) opening_balance

/-! ### Generic helper lemmas about the building blocks -/

lemma mem_uniques_loop {α : Type} [DecidableEq α] (l : List α) :
    ∀ (acc : List α) (x : α),
      (x ∈ l.foldl (fun acc x => if x ∈ acc then acc else acc ++ [x]) acc ↔
        x ∈ acc ∨ x ∈ l) := by
  induction l with
  | nil => intro acc x; simp
  | cons a t ih =>
    intro acc x
    simp only [List.foldl_cons]
    by_cases h : a ∈ acc
    · rw [if_pos h, ih]
      simp only [List.mem_cons]
      constructor
      · rintro (hx | hx)
        · exact Or.inl hx
        · exact Or.inr (Or.inr hx)
      · rintro (hx | hx | hx)
        · exact Or.inl hx
        · exact Or.inl (hx ▸ h)
        · exact Or.inr hx
    · rw [if_neg h, ih]
      simp only [List.mem_append, List.mem_singleton, List.mem_cons]
      tauto

lemma mem_uniques {α : Type} [DecidableEq α] (l : List α) (x : α) :
    x ∈ uniques l ↔ x ∈ l := by
  unfold uniques
  rw [mem_uniques_loop]
  simp

lemma nodup_uniques_loop {α : Type} [DecidableEq α] (l : List α) :
    ∀ (acc : List α), acc.Nodup →
      (l.foldl (fun acc x => if x ∈ acc then acc else acc ++ [x]) acc).Nodup := by
  induction l with
  | nil => intro acc hacc; simpa using hacc
  | cons a t ih =>
    intro acc hacc
    simp only [List.foldl_cons]
    by_cases h : a ∈ acc
    · rw [if_pos h]; exact ih acc hacc
    · rw [if_neg h]
      refine ih _ ?_
      rw [List.nodup_append]
      refine ⟨hacc, List.nodup_singleton a, ?_⟩
      intro x hx hx'
      rw [List.mem_singleton] at hx'
      exact h (hx' ▸ hx)

lemma nodup_uniques {α : Type} [DecidableEq α] (l : List α) :
    (uniques l).Nodup :=
  nodup_uniques_loop l [] List.nodup_nil

lemma lookup_map_self {β : Type} (l : List String) (g : String → β) (p : String)
    (hp : p ∈ l) :
    (l.map (fun q => (q, g q))).lookup p = some (g p) := by
  induction l with
  | nil => cases hp
  | cons a t ih =>
    by_cases h : p = a
    · subst h
      simp [List.lookup]
    · have hb : (p == a) = false := by simp [h]
      have hp' : p ∈ t := by
        rcases List.mem_cons.mp hp with h' | h'
        · exact absurd h' h
        · exact h'
      simpa [List.lookup, hb] using ih hp'

lemma lookup_isSome_of_fst_mem {β : Type} (l : List (String × β)) (p : String)
    (hp : p ∈ l.map Prod.fst) : (l.lookup p).isSome = true := by
  induction l with
  | nil => simp at hp
  | cons a t ih =>
    by_cases h : p = a.1
    · have hb : (p == a.1) = true := by simp [h]
      simp [List.lookup, hb]
    · have hb : (p == a.1) = false := by simp [h]
      have hp' : p ∈ t.map Prod.fst := by
        rw [List.map_cons, List.mem_cons] at hp
        rcases hp with h' | h'
        · exact absurd h' h
        · exact h'
      simpa [List.lookup, hb] using ih hp'

lemma genPeriodsAux_eq (n : Nat) :
    ∀ c : Nat, genPeriodsAux n c =
      (List.range n).map (fun i => periodLabelOfIdx (c + i)) := by
  induction n with
  | zero => intro c; simp [genPeriodsAux]
  | succ m ih =>
    intro c
    rw [genPeriodsAux, ih (c + 1), List.range_succ_eq_map]
    simp only [List.map_cons, List.map_map, Nat.add_zero]
    refine congrArg (periodLabelOfIdx c :: ·) ?_
    refine List.map_congr_left ?_
    intro i _
    simp only [Function.comp_apply]
    refine congrArg periodLabelOfIdx ?_
    omega

lemma monthIdx_le_of_leb {a b : Date} (ha : a.Valid) (hb : b.Valid)
    (h : Date.leb a b = true) : monthIdx a ≤ monthIdx b := by
  obtain ⟨ha1, ha2⟩ := ha
  obtain ⟨hb1, hb2⟩ := hb
  unfold Date.leb at h
  unfold monthIdx
  split_ifs at h with h1 h2 <;> simp only [decide_eq_true_eq] at h <;> omega

lemma build_periods_monthly_eq (s e : Date)
    (h1 : monthIdx s ≤ monthIdx e) :
    build_periods s e "monthly" =
      (List.range (monthIdx e - monthIdx s + 1)).map
        (fun i => periodLabelOfIdx (monthIdx s + i)) := by
  have h2 : monthIdx e + 1 - monthIdx s = monthIdx e - monthIdx s + 1 := by omega
  simp only [build_periods, generate_monthly_periods, genPeriodsAux_eq, h2]
  simp

lemma assign_period_monthly_label (d : Date) (hd : d.Valid)
    (periods : List String) :
    assign_period d "monthly" periods = periodLabelOfIdx (monthIdx d) := by
  obtain ⟨h1, h2⟩ := hd
  unfold assign_period periodLabelOfIdx monthIdx
  have hm : (d.year * 12 + (d.month - 1)) % 12 = d.month - 1 := by omega
  have hy : (d.year * 12 + (d.month - 1)) / 12 = d.year := by omega
  have hm1 : d.month - 1 + 1 = d.month := by omega
  rw [hm, hy, hm1]
  simp

/-! ### C5: the period planner -/

/-- C5: for every `start ≤ end`, yearly granularity plans exactly
`["Total"]`; monthly granularity plans the contiguous, chronologically
ordered month labels stepping one calendar month at a time from `start`'s
month to `end`'s month inclusive (the `i`-th label is the label of the
`i`-th month after `start`'s month); in particular
`build_periods(2024-09-15, 2024-11-03, monthly) = ["sep-24", "oct-24",
"nov-24"]`. -/
theorem C5_build_periods :
    (∀ start_date end_date : Date, Date.leb start_date end_date = true →
        build_periods start_date end_date "yearly" = ["Total"]) ∧
    (∀ start_date end_date : Date, start_date.Valid → end_date.Valid →
        Date.leb start_date end_date = true →
        build_periods start_date end_date "monthly" =
          (List.range (monthIdx end_date - monthIdx start_date + 1)).map
            (fun i => periodLabelOfIdx (monthIdx start_date + i))) ∧
    build_periods ⟨2024, 9, 15⟩ ⟨2024, 11, 3⟩ "monthly" =
      ["sep-24", "oct-24", "nov-24"] := by
  refine ⟨fun s e _ => rfl,
          fun s e hs he hle =>
            build_periods_monthly_eq s e (monthIdx_le_of_leb hs he hle),
          by decide⟩

/-- Witness for C5 at concrete inputs. -/
theorem C5_build_periods_witness :
    build_periods ⟨2024, 1, 10⟩ ⟨2024, 3, 5⟩ "yearly" = ["Total"] ∧
    build_periods ⟨2024, 1, 10⟩ ⟨2024, 3, 5⟩ "monthly" =
      (List.range (monthIdx ⟨2024, 3, 5⟩ - monthIdx ⟨2024, 1, 10⟩ + 1)).map
        (fun i => periodLabelOfIdx (monthIdx ⟨2024, 1, 10⟩ + i)) :=
  ⟨C5_build_periods.1 ⟨2024, 1, 10⟩ ⟨2024, 3, 5⟩ (by decide),
   C5_build_periods.2.1 ⟨2024, 1, 10⟩ ⟨2024, 3, 5⟩ (by decide) (by decide)
     (by decide)⟩

/-! ### C6: `assign_period` agrees with the planned labels -/

/-- C6: `assign_period` returns `"Total"` for every date under yearly
granularity; under monthly granularity, for every valid date `d` with
`start ≤ d ≤ end`, the assigned label is the generated label of `d`'s
calendar month and is a member of `build_periods(start, end, monthly)`. -/
theorem C6_assign_period :
    (∀ (d : Date) (periods : List String),
        assign_period d "yearly" periods = "Total") ∧
    (∀ (s e d : Date) (periods : List String), s.Valid → e.Valid → d.Valid →
        Date.leb s d = true → Date.leb d e = true →
        assign_period d "monthly" periods = periodLabelOfIdx (monthIdx d) ∧
        assign_period d "monthly" periods ∈ build_periods s e "monthly") := by
  refine ⟨fun d periods => rfl, fun s e d periods hs he hd hsd hde => ?_⟩
  have hlab := assign_period_monthly_label d hd periods
  have h1 := monthIdx_le_of_leb hs hd hsd
  have h2 := monthIdx_le_of_leb hd he hde
  refine ⟨hlab, ?_⟩
  rw [hlab, build_periods_monthly_eq s e (le_trans h1 h2)]
  rw [List.mem_map]
  refine ⟨monthIdx d - monthIdx s, ?_, ?_⟩
  · rw [List.mem_range]; omega
  · refine congrArg periodLabelOfIdx ?_; omega

/-- Witness for C6 at concrete inputs. -/
theorem C6_assign_period_witness :
    assign_period ⟨2024, 10, 7⟩ "yearly" [] = "Total" ∧
    (assign_period ⟨2024, 10, 7⟩ "monthly" [] =
        periodLabelOfIdx (monthIdx ⟨2024, 10, 7⟩) ∧
      assign_period ⟨2024, 10, 7⟩ "monthly" [] ∈
        build_periods ⟨2024, 9, 15⟩ ⟨2024, 11, 3⟩ "monthly") :=
  ⟨C6_assign_period.1 ⟨2024, 10, 7⟩ [],
   C6_assign_period.2 ⟨2024, 9, 15⟩ ⟨2024, 11, 3⟩ ⟨2024, 10, 7⟩ []
     (by decide) (by decide) (by decide) (by decide) (by decide)⟩

/-! ### C7: date-range validation -/

/-- C7: `validate_date_range(start, end)` fails exactly when `start > end`
or the month span `(end.year - start.year) * 12 + (end.month - start.month)`
exceeds 12 (day-of-month ignored); every accepted pair returns `.ok ()`
(no other effect).  In particular the range 2024-01-01..2025-02-01 is
rejected and 2024-01-01..2024-12-31 accepted. -/
theorem C7_validate_date_range :
    (∀ start_date end_date : Date,
        (validate_date_range start_date end_date).isOk = false ↔
          (Date.ltb end_date start_date = true ∨
            months_between start_date end_date > 12)) ∧
    (∀ start_date end_date : Date,
        (validate_date_range start_date end_date).isOk = true →
          validate_date_range start_date end_date = .ok ()) ∧
    (validate_date_range ⟨2024, 1, 1⟩ ⟨2025, 2, 1⟩).isOk = false ∧
    validate_date_range ⟨2024, 1, 1⟩ ⟨2024, 12, 31⟩ = .ok () := by
  refine ⟨fun s e => ?_, fun s e h => ?_, by decide, by decide⟩
  · unfold validate_date_range
    split_ifs with h1 h2
    · simp [Except.isOk, Except.toBool, h1]
    · simp [Except.isOk, Except.toBool, h1, h2]
    · simp [Except.isOk, Except.toBool, h1, h2]
  · unfold validate_date_range at h ⊢
    split_ifs at h ⊢
    · simp [Except.isOk, Except.toBool] at h
    · simp [Except.isOk, Except.toBool] at h
    · rfl

/-- Witness for C7 at concrete inputs. -/
theorem C7_validate_date_range_witness :
    ((validate_date_range ⟨2024, 1, 1⟩ ⟨2025, 2, 1⟩).isOk = false ↔
      (Date.ltb ⟨2025, 2, 1⟩ ⟨2024, 1, 1⟩ = true ∨
        months_between ⟨2024, 1, 1⟩ ⟨2025, 2, 1⟩ > 12)) ∧
    validate_date_range ⟨2024, 2, 1⟩ ⟨2024, 3, 1⟩ = .ok () :=
  ⟨C7_validate_date_range.1 ⟨2024, 1, 1⟩ ⟨2025, 2, 1⟩,
   C7_validate_date_range.2.1 ⟨2024, 2, 1⟩ ⟨2024, 3, 1⟩ (by decide)⟩

/-! ### Per-period maps -/

/-- A per-period mapping: an association list whose keys are exactly the
planned periods in order, each value depending only on its key. -/
def IsPeriodMap (periods : List String) (m : List (String × ℚ)) : Prop :=
  ∃ g : String → ℚ, m = periods.map (fun q => (q, g q))

lemma isPeriodMap_map (periods : List String) (f : String → ℚ) :
    IsPeriodMap periods (periods.map (fun q => (q, f q))) := ⟨f, rfl⟩

lemma isPeriodMap_periodFillBy {α : Type} (value : α → ℚ) (dateOf : α → Date)
    (rows : List α) (fmt : String) (periods : List String) :
    IsPeriodMap periods (periodFillBy value dateOf rows fmt periods) := ⟨_, rfl⟩

lemma IsPeriodMap.exists_lookup {periods : List String}
    {m : List (String × ℚ)} (h : IsPeriodMap periods m) {p : String}
    (hp : p ∈ periods) : ∃ v, m.lookup p = some v := by
  obtain ⟨g, rfl⟩ := h
  exact ⟨g p, lookup_map_self periods g p hp⟩

lemma isPeriodMap_revenue_total (income_df : List IncomeRecord)
    (fmt : String) (periods : List String) :
    IsPeriodMap periods (build_revenue_section income_df fmt periods).total_net_revenue := by
  by_cases h : income_df.isEmpty
  · rw [build_revenue_section, if_pos h]
    exact ⟨fun _ => 0, rfl⟩
  · rw [build_revenue_section, if_neg h]
    exact ⟨_, rfl⟩

lemma isPeriodMap_section_total (value : ExpenseRecord → ℚ)
    (expense_df : List ExpenseRecord) (fmt : String) (periods : List String) :
    IsPeriodMap periods (build_section_core value expense_df fmt periods).total := by
  by_cases h : expense_df.isEmpty
  · rw [build_section_core, if_pos h]
    exact ⟨fun _ => 0, rfl⟩
  · rw [build_section_core, if_neg h]
    exact ⟨_, rfl⟩

lemma isPeriodMap_expense_total (expense_df : List ExpenseRecord)
    (fmt : String) (periods : List String) :
    IsPeriodMap periods (build_expense_section expense_df fmt periods).total :=
  isPeriodMap_section_total (·.amount) expense_df fmt periods

lemma isPeriodMap_outflows_total (expense_df : List ExpenseRecord)
    (fmt : String) (periods : List String) :
    IsPeriodMap periods (build_outflows_section expense_df fmt periods).total :=
  isPeriodMap_section_total (·.grand_total) expense_df fmt periods

/-- Characterization of a successful P&L generation. -/
lemma generate_pnl_ok (st : Storage) (s e : Date) (fmt : String)
    (loc : Option String) (rep : PnLReport)
    (h : generate_pnl_report st s e fmt loc = .ok rep) :
    rep = pnl_report_body st s e fmt loc := by
  unfold generate_pnl_report at h
  split at h
  · exact absurd h (by simp)
  · split_ifs at h
    injection h with h
    exact h.symm

/-- Characterization of a successful cashflow generation. -/
lemma generate_cashflow_ok (st : Storage) (s e : Date) (fmt : String)
    (loc : Option String) (b : ℚ) (rep : CashflowReport)
    (h : generate_cashflow_report st s e fmt loc b = .ok rep) :
    rep = cashflow_report_body st s e fmt loc b := by
  unfold generate_cashflow_report at h
  split at h
  · exact absurd h (by simp)
  · split_ifs at h
    injection h with h
    exact h.symm

/-! ### C3: P&L derived metrics -/

/-- C3: in every generated P&L report and every planned period,
`gross_profit = revenue_total - cogs_total`, `ebit = gross_profit -
opex_total`, `income_tax = max(0, ebit * 0.15)` and `net_earnings = ebit -
income_tax`; in particular a period with negative EBIT pays exactly zero
tax. -/
theorem C3_pnl_metrics (st : Storage) (s e : Date) (fmt : String)
    (loc : Option String) (rep : PnLReport)
    (h : generate_pnl_report st s e fmt loc = .ok rep) :
    ∀ p ∈ rep.report_info.periods,
      ∃ r c o g eb t n : ℚ,
        rep.revenue.total_net_revenue.lookup p = some r ∧
        rep.cogs.total.lookup p = some c ∧
        rep.operating_expenses.total.lookup p = some o ∧
        rep.gross_profit.lookup p = some g ∧
        rep.ebit.lookup p = some eb ∧
        rep.income_tax.lookup p = some t ∧
        rep.net_earnings.lookup p = some n ∧
        g = r - c ∧ eb = g - o ∧ t = max 0 (eb * TAX_RATE) ∧
        n = eb - t ∧ (eb < 0 → t = 0) := by
  intro p hp
  have hrep := generate_pnl_ok st s e fmt loc rep h
  subst hrep
  set body := pnl_report_body st s e fmt loc with hbody
  have hper : body.report_info.periods = build_periods s e fmt := rfl
  rw [hper] at hp
  have hrev : body.revenue = build_revenue_section
      (get_income_data st s e (if loc = some "All" then none else loc)) fmt
      (build_periods s e fmt) := rfl
  have hcogs : body.cogs = build_expense_section
      (get_expense_data st s e (if loc = some "All" then none else loc)
        (some [ExpenseType.COGS])) fmt (build_periods s e fmt) := rfl
  have hopex : body.operating_expenses = build_expense_section
      (get_expense_data st s e (if loc = some "All" then none else loc)
        (some [ExpenseType.OPEX])) fmt (build_periods s e fmt) := rfl
  obtain ⟨r, hr⟩ := (isPeriodMap_revenue_total
    (get_income_data st s e (if loc = some "All" then none else loc)) fmt
    (build_periods s e fmt)).exists_lookup hp
  obtain ⟨c, hc⟩ := (isPeriodMap_expense_total
    (get_expense_data st s e (if loc = some "All" then none else loc)
      (some [ExpenseType.COGS])) fmt (build_periods s e fmt)).exists_lookup hp
  obtain ⟨o, ho⟩ := (isPeriodMap_expense_total
    (get_expense_data st s e (if loc = some "All" then none else loc)
      (some [ExpenseType.OPEX])) fmt (build_periods s e fmt)).exists_lookup hp
  rw [← hrev] at hr
  rw [← hcogs] at hc
  rw [← hopex] at ho
  have hgross : body.gross_profit = (build_periods s e fmt).map (fun q =>
      (q, (body.revenue.total_net_revenue.lookup q).getD 0 -
          (body.cogs.total.lookup q).getD 0)) := rfl
  have hebit : body.ebit = (build_periods s e fmt).map (fun q =>
      (q, (body.gross_profit.lookup q).getD 0 -
          (body.operating_expenses.total.lookup q).getD 0)) := rfl
  have htax : body.income_tax = (build_periods s e fmt).map (fun q =>
      (q, max 0 ((body.ebit.lookup q).getD 0 * TAX_RATE))) := rfl
  have hnet : body.net_earnings = (build_periods s e fmt).map (fun q =>
      (q, (body.ebit.lookup q).getD 0 - (body.income_tax.lookup q).getD 0)) := rfl
  have h5 : body.gross_profit.lookup p = some (r - c) := by
    rw [hgross, lookup_map_self _ _ _ hp, hr, hc]
    rfl
  have h6 : body.ebit.lookup p = some ((r - c) - o) := by
    rw [hebit, lookup_map_self _ _ _ hp, h5, ho]
    rfl
  have h7 : body.income_tax.lookup p = some (max 0 (((r - c) - o) * TAX_RATE)) := by
    rw [htax, lookup_map_self _ _ _ hp, h6]
    rfl
  have h8 : body.net_earnings.lookup p =
      some (((r - c) - o) - max 0 (((r - c) - o) * TAX_RATE)) := by
    rw [hnet, lookup_map_self _ _ _ hp, h6, h7]
    rfl
  refine ⟨r, c, o, r - c, (r - c) - o,
          max 0 (((r - c) - o) * TAX_RATE),
          ((r - c) - o) - max 0 (((r - c) - o) * TAX_RATE),
          hr, hc, ho, h5, h6, h7, h8, rfl, rfl, rfl, rfl, ?_⟩
  intro heb
  have hneg : ((r - c) - o) * TAX_RATE < 0 :=
    mul_neg_of_neg_of_pos heb (by norm_num [TAX_RATE])
  exact max_eq_left (le_of_lt hneg)

/-! ### C2: cashflow running balances -/

/-- The spec's balance recurrence, written from its words: the first
period's opening equals the balance carried in, its closing equals that
opening plus the period's net cashflow, and later periods continue from the
carried closing. -/
def spec_opening_balances (nc : String → ℚ) (b : ℚ) :
    List String → List (String × ℚ)
  | [] => []
  | p :: ps => (p, b) :: spec_opening_balances nc (b + nc p) ps

/-- Closing side of the spec's balance recurrence. -/
def spec_closing_balances (nc : String → ℚ) (b : ℚ) :
    List String → List (String × ℚ)
  | [] => []
  | p :: ps => (p, b + nc p) :: spec_closing_balances nc (b + nc p) ps

lemma balanceFold_loop (net : List (String × ℚ)) (ps : List String) :
    ∀ (cum : ℚ) (o cl : List (String × ℚ)),
      ps.foldl (fun acc p =>
          let c := acc.1
          let c' := c + (net.lookup p).getD 0
          (c', acc.2.1 ++ [(p, c)], acc.2.2 ++ [(p, c')])) (cum, o, cl) =
        (cum + (ps.map (fun p => (net.lookup p).getD 0)).sum,
         o ++ spec_opening_balances (fun p => (net.lookup p).getD 0) cum ps,
         cl ++ spec_closing_balances (fun p => (net.lookup p).getD 0) cum ps) := by
  induction ps with
  | nil => intro cum o cl; simp [spec_opening_balances, spec_closing_balances]
  | cons p ps ih =>
    intro cum o cl
    simp only [List.foldl_cons]
    rw [ih]
    simp [spec_opening_balances, spec_closing_balances, add_assoc]

lemma balanceFold_eq (net : List (String × ℚ)) (b : ℚ) (ps : List String) :
    balanceFold net b ps =
      (b + (ps.map (fun p => (net.lookup p).getD 0)).sum,
       spec_opening_balances (fun p => (net.lookup p).getD 0) b ps,
       spec_closing_balances (fun p => (net.lookup p).getD 0) b ps) := by
  unfold balanceFold
  rw [balanceFold_loop]
  simp

lemma spec_opening_fst (nc : String → ℚ) (ps : List String) :
    ∀ b, (spec_opening_balances nc b ps).map Prod.fst = ps := by
  induction ps with
  | nil => intro b; rfl
  | cons p ps ih => intro b; simp [spec_opening_balances, ih]

lemma spec_closing_fst (nc : String → ℚ) (ps : List String) :
    ∀ b, (spec_closing_balances nc b ps).map Prod.fst = ps := by
  induction ps with
  | nil => intro b; rfl
  | cons p ps ih => intro b; simp [spec_closing_balances, ih]

lemma spec_opening_snd (nc : String → ℚ) (ps : List String) :
    ∀ (b : ℚ) (i : Nat), i < ps.length →
      ((spec_opening_balances nc b ps).map Prod.snd)[i]? =
        some (b + ((ps.take i).map nc).sum) := by
  induction ps with
  | nil => intro b i hi; simp at hi
  | cons p ps ih =>
    intro b i hi
    cases i with
    | zero => simp [spec_opening_balances]
    | succ j =>
      simp only [spec_opening_balances, List.map_cons, List.getElem?_cons_succ]
      rw [ih (b + nc p) j (by simpa using hi)]
      simp [List.take_succ_cons, add_assoc]

lemma spec_closing_snd (nc : String → ℚ) (ps : List String) :
    ∀ (b : ℚ) (i : Nat), i < ps.length →
      ((spec_closing_balances nc b ps).map Prod.snd)[i]? =
        some (b + ((ps.take (i + 1)).map nc).sum) := by
  induction ps with
  | nil => intro b i hi; simp at hi
  | cons p ps ih =>
    intro b i hi
    cases i with
    | zero => simp [spec_closing_balances, List.take_succ_cons]
    | succ j =>
      simp only [spec_closing_balances, List.map_cons, List.getElem?_cons_succ]
      rw [ih (b + nc p) j (by simpa using hi)]
      simp [List.take_succ_cons, add_assoc]

/-- Concrete dataset of the spec's cashflow running-balance example: one
January income of 200 (VAT inclusive) and one February expense of 50 (VAT
inclusive), so the monthly net cashflow is jan-24: 200, feb-24: -50. -/
def cashflowExampleStorage : Storage :=
  { incomes := [ { customer := "Acme", doc_date := ⟨2024, 1, 15⟩,
                   amount := 187, grand_total := 200, location := "Bkk" } ],
    expenses := [ { doc_date := ⟨2024, 2, 10⟩, amount := 47, grand_total := 50,
                    etype := .COGS, location := "Bkk", category_name := "Ops",
                    parent_category := none } ] }

/-- C2: in every monthly cashflow report the balances are cumulative —
the keys of `opening` and `closing` are exactly the planned periods, the
first opening is the caller-supplied balance, every later opening equals
the previous closing, and every closing equals its opening plus that
period's net cashflow; for yearly format `opening = {"Total": b}` and
`closing = {"Total": b + net["Total"]}`.  On the concrete example
(opening 1000, net jan-24: 200, feb-24: -50) the balances are opening
jan 1000 / feb 1200 and closing jan 1200 / feb 1150. -/
theorem C2_cashflow_balances :
    (∀ (st : Storage) (s e : Date) (loc : Option String) (b : ℚ)
        (rep : CashflowReport),
        generate_cashflow_report st s e "monthly" loc b = .ok rep →
        rep.opening_balance.map Prod.fst = rep.report_info.periods ∧
        rep.closing_balance.map Prod.fst = rep.report_info.periods ∧
        (0 < rep.report_info.periods.length →
          (rep.opening_balance.map Prod.snd)[0]? = some b) ∧
        (∀ i : Nat, i + 1 < rep.report_info.periods.length →
          (rep.opening_balance.map Prod.snd)[i + 1]? =
            (rep.closing_balance.map Prod.snd)[i]?) ∧
        (∀ (i : Nat) (p : String), rep.report_info.periods[i]? = some p →
          ∃ o c : ℚ, (rep.opening_balance.map Prod.snd)[i]? = some o ∧
            (rep.closing_balance.map Prod.snd)[i]? = some c ∧
            c = o + (rep.net_cashflow.lookup p).getD 0)) ∧
    (∀ (st : Storage) (s e : Date) (loc : Option String) (b : ℚ)
        (rep : CashflowReport),
        generate_cashflow_report st s e "yearly" loc b = .ok rep →
        rep.opening_balance = [("Total", b)] ∧
        rep.closing_balance =
          [("Total", b + (rep.net_cashflow.lookup "Total").getD 0)]) ∧
    ((cashflow_report_body cashflowExampleStorage ⟨2024, 1, 1⟩ ⟨2024, 2, 28⟩
        "monthly" none 1000).net_cashflow =
          [("jan-24", 200), ("feb-24", -50)] ∧
      (cashflow_report_body cashflowExampleStorage ⟨2024, 1, 1⟩ ⟨2024, 2, 28⟩
        "monthly" none 1000).opening_balance =
          [("jan-24", 1000), ("feb-24", 1200)] ∧
      (cashflow_report_body cashflowExampleStorage ⟨2024, 1, 1⟩ ⟨2024, 2, 28⟩
        "monthly" none 1000).closing_balance =
          [("jan-24", 1200), ("feb-24", 1150)]) := by
  refine ⟨?_, ?_, ?_, ?_, ?_⟩
  · intro st s e loc b rep h
    have hrep := generate_cashflow_ok st s e "monthly" loc b rep h
    subst hrep
    set body := cashflow_report_body st s e "monthly" loc b with hbody
    have hper : body.report_info.periods = build_periods s e "monthly" := rfl
    have hopen : body.opening_balance =
        spec_opening_balances (fun p => (body.net_cashflow.lookup p).getD 0) b
          (build_periods s e "monthly") := by
      have h0 : body.opening_balance =
          (balanceFold body.net_cashflow b (build_periods s e "monthly")).2.1 := rfl
      rw [h0, balanceFold_eq]
    have hclose : body.closing_balance =
        spec_closing_balances (fun p => (body.net_cashflow.lookup p).getD 0) b
          (build_periods s e "monthly") := by
      have h0 : body.closing_balance =
          (balanceFold body.net_cashflow b (build_periods s e "monthly")).2.2 := rfl
      rw [h0, balanceFold_eq]
    rw [hper, hopen, hclose]
    refine ⟨spec_opening_fst _ _ b, spec_closing_fst _ _ b, ?_, ?_, ?_⟩
    · intro hlen
      rw [spec_opening_snd _ _ b 0 hlen]
      simp
    · intro i hi
      rw [spec_opening_snd _ _ b (i + 1) hi,
          spec_closing_snd _ _ b i (by omega)]
    · intro i p hip
      have hi : i < (build_periods s e "monthly").length := by
        by_contra hcon
        push_neg at hcon
        rw [List.getElem?_eq_none hcon] at hip
        cases hip
      refine ⟨b + (((build_periods s e "monthly").take i).map
                (fun p => (body.net_cashflow.lookup p).getD 0)).sum,
              b + (((build_periods s e "monthly").take (i + 1)).map
                (fun p => (body.net_cashflow.lookup p).getD 0)).sum,
              spec_opening_snd _ _ b i hi, spec_closing_snd _ _ b i hi, ?_⟩
      rw [List.take_succ, hip]
      simp [add_assoc]
  · intro st s e loc b rep h
    have hrep := generate_cashflow_ok st s e "yearly" loc b rep h
    subst hrep
    exact ⟨rfl, rfl⟩
  · simp [cashflow_report_body, build_periods, generate_monthly_periods, monthIdx,
      genPeriodsAux, periodLabelOfIdx, monthAbbrev, twoDigitYear, pad2,
      get_income_data, get_expense_data, cashflowExampleStorage, Date.leb,
      build_inflows_section, build_outflows_section, build_section_core,
      periodFillBy, assign_period, uniques, List.lookup, balanceFold,
      show toString (24 : Nat) = "24" from by decide]
    try norm_num
  · simp [cashflow_report_body, build_periods, generate_monthly_periods, monthIdx,
      genPeriodsAux, periodLabelOfIdx, monthAbbrev, twoDigitYear, pad2,
      get_income_data, get_expense_data, cashflowExampleStorage, Date.leb,
      build_inflows_section, build_outflows_section, build_section_core,
      periodFillBy, assign_period, uniques, List.lookup, balanceFold,
      show toString (24 : Nat) = "24" from by decide]
    try norm_num
  · simp [cashflow_report_body, build_periods, generate_monthly_periods, monthIdx,
      genPeriodsAux, periodLabelOfIdx, monthAbbrev, twoDigitYear, pad2,
      get_income_data, get_expense_data, cashflowExampleStorage, Date.leb,
      build_inflows_section, build_outflows_section, build_section_core,
      periodFillBy, assign_period, uniques, List.lookup, balanceFold,
      show toString (24 : Nat) = "24" from by decide]
    try norm_num

/-- Witness for C2: the monthly clause applied to the concrete example
dataset. -/
theorem C2_cashflow_balances_witness :
    (cashflow_report_body cashflowExampleStorage ⟨2024, 1, 1⟩ ⟨2024, 2, 28⟩
        "monthly" none 1000).opening_balance.map Prod.fst =
      (cashflow_report_body cashflowExampleStorage ⟨2024, 1, 1⟩ ⟨2024, 2, 28⟩
        "monthly" none 1000).report_info.periods :=
  (C2_cashflow_balances.1 cashflowExampleStorage ⟨2024, 1, 1⟩ ⟨2024, 2, 28⟩
    none 1000 _ rfl).1

/-- Witness for C3: an empty storage, yearly format. -/
theorem C3_pnl_metrics_witness :
    ∃ r c o g eb t n : ℚ,
      (pnl_report_body ⟨[], []⟩ ⟨2024, 1, 1⟩ ⟨2024, 3, 31⟩ "yearly"
          none).revenue.total_net_revenue.lookup "Total" = some r ∧
      (pnl_report_body ⟨[], []⟩ ⟨2024, 1, 1⟩ ⟨2024, 3, 31⟩ "yearly"
          none).cogs.total.lookup "Total" = some c ∧
      (pnl_report_body ⟨[], []⟩ ⟨2024, 1, 1⟩ ⟨2024, 3, 31⟩ "yearly"
          none).operating_expenses.total.lookup "Total" = some o ∧
      (pnl_report_body ⟨[], []⟩ ⟨2024, 1, 1⟩ ⟨2024, 3, 31⟩ "yearly"
          none).gross_profit.lookup "Total" = some g ∧
      (pnl_report_body ⟨[], []⟩ ⟨2024, 1, 1⟩ ⟨2024, 3, 31⟩ "yearly"
          none).ebit.lookup "Total" = some eb ∧
      (pnl_report_body ⟨[], []⟩ ⟨2024, 1, 1⟩ ⟨2024, 3, 31⟩ "yearly"
          none).income_tax.lookup "Total" = some t ∧
      (pnl_report_body ⟨[], []⟩ ⟨2024, 1, 1⟩ ⟨2024, 3, 31⟩ "yearly"
          none).net_earnings.lookup "Total" = some n ∧
      g = r - c ∧ eb = g - o ∧ t = max 0 (eb * TAX_RATE) ∧
      n = eb - t ∧ (eb < 0 → t = 0) :=
  C3_pnl_metrics ⟨[], []⟩ ⟨2024, 1, 1⟩ ⟨2024, 3, 31⟩ "yearly" none
    (pnl_report_body ⟨[], []⟩ ⟨2024, 1, 1⟩ ⟨2024, 3, 31⟩ "yearly" none)
    rfl "Total" (by decide)

/-! ### C8: fail-fast validation -/

/-- C8: whenever `start > end`, the month span exceeds 12, or the format is
neither yearly nor monthly, both report generators fail with a validation
error that is identical for every state of the underlying storage (and, for
cashflow, every opening balance) — validation precedes any data access and
no partial report is ever returned. -/
theorem C8_fail_fast (st st' : Storage) (s e : Date) (fmt : String)
    (loc : Option String) (b b' : ℚ)
    (hbad : Date.ltb e s = true ∨ months_between s e > 12 ∨
      (fmt ≠ "yearly" ∧ fmt ≠ "monthly")) :
    (∃ err, generate_pnl_report st s e fmt loc = .error err ∧
            generate_pnl_report st' s e fmt loc = .error err) ∧
    (∃ err, generate_cashflow_report st s e fmt loc b = .error err ∧
            generate_cashflow_report st' s e fmt loc b' = .error err) := by
  unfold generate_pnl_report generate_cashflow_report
  by_cases h1 : Date.ltb e s = true
  · simp only [validate_date_range, if_pos h1]
    exact ⟨⟨_, rfl, rfl⟩, ⟨_, rfl, rfl⟩⟩
  · by_cases h2 : months_between s e > 12
    · simp only [validate_date_range, if_neg h1, if_pos h2]
      exact ⟨⟨_, rfl, rfl⟩, ⟨_, rfl, rfl⟩⟩
    · have hf : ¬(fmt = "yearly" ∨ fmt = "monthly") := by
        rcases hbad with hb | hb | hb
        · exact absurd hb h1
        · exact absurd hb h2
        · rintro (hy | hm)
          · exact hb.1 hy
          · exact hb.2 hm
      simp only [validate_date_range, if_neg h1, if_neg h2, if_neg hf]
      exact ⟨⟨_, rfl, rfl⟩, ⟨_, rfl, rfl⟩⟩

/-- Witness for C8: a reversed date range, with two different storage
states and two different opening balances. -/
theorem C8_fail_fast_witness :
    (∃ err, generate_pnl_report ⟨[], []⟩ ⟨2024, 5, 1⟩ ⟨2024, 1, 1⟩ "monthly"
              none = .error err ∧
            generate_pnl_report cashflowExampleStorage ⟨2024, 5, 1⟩
              ⟨2024, 1, 1⟩ "monthly" none = .error err) ∧
    (∃ err, generate_cashflow_report ⟨[], []⟩ ⟨2024, 5, 1⟩ ⟨2024, 1, 1⟩
              "monthly" none 0 = .error err ∧
            generate_cashflow_report cashflowExampleStorage ⟨2024, 5, 1⟩
              ⟨2024, 1, 1⟩ "monthly" none 1000 = .error err) :=
  C8_fail_fast ⟨[], []⟩ cashflowExampleStorage ⟨2024, 5, 1⟩ ⟨2024, 1, 1⟩
    "monthly" none 0 1000 (Or.inl (by decide))

/-! ### C9: boundary date parsing -/

/-- C9: a boundary date string that does not parse as `DD/MM/YYYY` makes
both report routes fail with the validation error carrying the offending
value and the expected format (the start date is checked first); when both
strings parse, the parsed dates are passed through unchanged to the
service. -/
theorem C9_route_date_parsing (st : Storage) (sd ed fmt : String)
    (loc : Option String) (b : ℚ) :
    (strptime_dd_mm_yyyy sd = none →
      get_profit_and_loss_report st sd ed fmt loc =
        .error { detail := "Invalid date format: '" ++ sd ++
                   "'. Expected DD/MM/YYYY (e.g., 25/12/2025)",
                 context := [("provided_value", sd),
                             ("expected_format", "DD/MM/YYYY")] } ∧
      get_cashflow_report st sd ed fmt loc b =
        .error { detail := "Invalid date format: '" ++ sd ++
                   "'. Expected DD/MM/YYYY (e.g., 25/12/2025)",
                 context := [("provided_value", sd),
                             ("expected_format", "DD/MM/YYYY")] }) ∧
    (∀ d : Date, strptime_dd_mm_yyyy sd = some d →
      strptime_dd_mm_yyyy ed = none →
      get_profit_and_loss_report st sd ed fmt loc =
        .error { detail := "Invalid date format: '" ++ ed ++
                   "'. Expected DD/MM/YYYY (e.g., 25/12/2025)",
                 context := [("provided_value", ed),
                             ("expected_format", "DD/MM/YYYY")] } ∧
      get_cashflow_report st sd ed fmt loc b =
        .error { detail := "Invalid date format: '" ++ ed ++
                   "'. Expected DD/MM/YYYY (e.g., 25/12/2025)",
                 context := [("provided_value", ed),
                             ("expected_format", "DD/MM/YYYY")] }) ∧
    (∀ d d' : Date, strptime_dd_mm_yyyy sd = some d →
      strptime_dd_mm_yyyy ed = some d' →
      get_profit_and_loss_report st sd ed fmt loc =
        generate_pnl_report st d d' fmt (some (routeLocation loc)) ∧
      get_cashflow_report st sd ed fmt loc b =
        generate_cashflow_report st d d' fmt (some (routeLocation loc)) b) := by
  refine ⟨fun h1 => ?_, fun d h1 h2 => ?_, fun d d' h1 h2 => ?_⟩
  · constructor <;>
      simp [get_profit_and_loss_report, get_cashflow_report,
        parse_date_dd_mm_yyyy, h1]
  · constructor <;>
      simp [get_profit_and_loss_report, get_cashflow_report,
        parse_date_dd_mm_yyyy, h1, h2]
  · constructor <;>
      simp [get_profit_and_loss_report, get_cashflow_report,
        parse_date_dd_mm_yyyy, h1, h2]

/-- Witness for C9: a malformed start date, a malformed end date behind a
well-formed start date, and a fully well-formed pair. -/
theorem C9_route_date_parsing_witness :
    (get_profit_and_loss_report ⟨[], []⟩ "2025-12-25" "31/12/2025" "yearly"
        none =
      .error { detail := "Invalid date format: '" ++ "2025-12-25" ++
                 "'. Expected DD/MM/YYYY (e.g., 25/12/2025)",
               context := [("provided_value", "2025-12-25"),
                           ("expected_format", "DD/MM/YYYY")] } ∧
      get_cashflow_report ⟨[], []⟩ "2025-12-25" "31/12/2025" "yearly"
        none 0 =
      .error { detail := "Invalid date format: '" ++ "2025-12-25" ++
                 "'. Expected DD/MM/YYYY (e.g., 25/12/2025)",
               context := [("provided_value", "2025-12-25"),
                           ("expected_format", "DD/MM/YYYY")] }) ∧
    (get_profit_and_loss_report ⟨[], []⟩ "01/01/2025" "31/12/2025" "yearly"
        none =
      generate_pnl_report ⟨[], []⟩ ⟨2025, 1, 1⟩ ⟨2025, 12, 31⟩ "yearly"
        (some (routeLocation none)) ∧
      get_cashflow_report ⟨[], []⟩ "01/01/2025" "31/12/2025" "yearly"
        none 0 =
      generate_cashflow_report ⟨[], []⟩ ⟨2025, 1, 1⟩ ⟨2025, 12, 31⟩ "yearly"
        (some (routeLocation none)) 0) :=
  ⟨(C9_route_date_parsing ⟨[], []⟩ "2025-12-25" "31/12/2025" "yearly" none
      0).1 (by decide),
   (C9_route_date_parsing ⟨[], []⟩ "01/01/2025" "31/12/2025" "yearly" none
      0).2.2 ⟨2025, 1, 1⟩ ⟨2025, 12, 31⟩ (by decide) (by decide)⟩

/-! ### C1: the category-tree aggregator -/

lemma isEmpty_false_of_ne_nil {α : Type} {l : List α} (h : l ≠ []) :
    l.isEmpty = false := by
  cases l with
  | nil => exact absurd rfl h
  | cons a t => rfl

/-- The top-level entry built for a parent category `P` occurring in the
dataset: its subcategory maps and its conditional `direct` block, exactly as
assembled by the `for parent_cat in parent_categories` loop. -/
lemma mem_parent_entries (value : ExpenseRecord → ℚ)
    (df : List ExpenseRecord) (fmt : String) (periods : List String)
    (hne : df.isEmpty = false) (P : String)
    (hP : P ∈ df.filterMap (·.parent_category)) :
    ((P, ({ subcategories :=
              (uniques ((df.filter
                  (fun r => r.parent_category = some P)).map (·.category_name))).map
                (fun subcat =>
                  (subcat, periodFillBy value (·.doc_date)
                    (df.filter (fun r =>
                      r.category_name = subcat ∧ r.parent_category = some P))
                    fmt periods)),
            direct :=
              if (df.filter (fun r =>
                    r.category_name = P ∧ r.parent_category = none)).isEmpty then
                none
              else
                some (periodFillBy value (·.doc_date)
                  (df.filter (fun r =>
                    r.category_name = P ∧ r.parent_category = none))
                  fmt periods) } : CategoryData)) : String × CategoryData) ∈
      (build_section_core value df fmt periods).expenses_by_category := by
  rw [build_section_core, if_neg (by simp [hne])]
  refine List.mem_append_left _ ?_
  refine List.mem_map.mpr ⟨P, ?_, rfl⟩
  rw [mem_uniques]
  exact hP

/-- The top-level entry built for an orphan category `C` (directly posted,
never a parent): an empty subcategory map plus a `direct` block summing all
rows carrying that category name. -/
lemma mem_orphan_entries (value : ExpenseRecord → ℚ)
    (df : List ExpenseRecord) (fmt : String) (periods : List String)
    (hne : df.isEmpty = false) (C : String)
    (hC : C ∈ (df.filter (fun r => r.parent_category = none)).map (·.category_name))
    (hnp : C ∉ df.filterMap (·.parent_category)) :
    ((C, ({ subcategories := [],
            direct := some (periodFillBy value (·.doc_date)
              (df.filter (fun r => r.category_name = C)) fmt periods) } :
        CategoryData)) : String × CategoryData) ∈
      (build_section_core value df fmt periods).expenses_by_category := by
  rw [build_section_core, if_neg (by simp [hne])]
  refine List.mem_append_right _ ?_
  refine List.mem_map.mpr ⟨C, ?_, rfl⟩
  rw [List.mem_filter]
  refine ⟨(mem_uniques _ C).mpr hC, ?_⟩
  simp only [decide_eq_true_eq]
  rw [mem_uniques]
  exact hnp

/-- Concrete dataset of the spec's category-hierarchy example: one expense
on subcategory "Raw Materials" (parent "Materials") and one posted directly
to the parent category "Materials". -/
def hierarchyExampleRecords : List ExpenseRecord :=
  [ { doc_date := ⟨2024, 9, 10⟩, amount := 500, grand_total := 535,
      etype := .COGS, location := "Bkk", category_name := "Raw Materials",
      parent_category := some "Materials" },
    { doc_date := ⟨2024, 9, 20⟩, amount := 200, grand_total := 214,
      etype := .COGS, location := "Bkk", category_name := "Materials",
      parent_category := none } ]

/-- C1: for every non-empty expense dataset, (a) each record with parent
`P` is grouped under the top-level entry for `P`, inside `subcategories`
under its own category name, with the per-period sums of the `(P, name)`
group; (b) each directly-posted record whose category also appears as a
parent is merged into that parent's entry as a `direct` block alongside its
non-empty `subcategories`; (c) each directly-posted record whose category
never appears as a parent gets its own top-level entry with empty
`subcategories` and only a `direct` block.  On the spec's example the
aggregator yields the single entry
Materials ↦ (subcategories: Raw Materials, direct block), in both the P&L
and the cashflow variant. -/
theorem C1_category_hierarchy :
    (∀ (df : List ExpenseRecord) (fmt : String) (periods : List String),
      df ≠ [] →
      (∀ r ∈ df, ∀ P : String, r.parent_category = some P →
        ∃ cd : CategoryData,
          (P, cd) ∈ (build_expense_section df fmt periods).expenses_by_category ∧
          (r.category_name,
            periodFillBy (·.amount) (·.doc_date)
              (df.filter (fun x =>
                x.category_name = r.category_name ∧ x.parent_category = some P))
              fmt periods) ∈ cd.subcategories) ∧
      (∀ r ∈ df, r.parent_category = none →
        r.category_name ∈ df.filterMap (·.parent_category) →
        ∃ cd : CategoryData,
          (r.category_name, cd) ∈
            (build_expense_section df fmt periods).expenses_by_category ∧
          cd.subcategories ≠ [] ∧
          cd.direct = some (periodFillBy (·.amount) (·.doc_date)
            (df.filter (fun x =>
              x.category_name = r.category_name ∧ x.parent_category = none))
            fmt periods)) ∧
      (∀ r ∈ df, r.parent_category = none →
        r.category_name ∉ df.filterMap (·.parent_category) →
        ((r.category_name,
          ({ subcategories := [],
             direct := some (periodFillBy (·.amount) (·.doc_date)
               (df.filter (fun x => x.category_name = r.category_name))
               fmt periods) } : CategoryData)) : String × CategoryData) ∈
          (build_expense_section df fmt periods).expenses_by_category)) ∧
    build_expense_section hierarchyExampleRecords "yearly" ["Total"] =
      { expenses_by_category :=
          [("Materials",
            { subcategories := [("Raw Materials", [("Total", 500)])],
              direct := some [("Total", 200)] })],
        total := [("Total", 700)] } ∧
    build_outflows_section hierarchyExampleRecords "yearly" ["Total"] =
      { expenses_by_category :=
          [("Materials",
            { subcategories := [("Raw Materials", [("Total", 535)])],
              direct := some [("Total", 214)] })],
        total := [("Total", 749)] } := by
  refine ⟨fun df fmt periods hne => ⟨?_, ?_, ?_⟩, ?_, ?_⟩
  · intro r hr P hP
    have hne' := isEmpty_false_of_ne_nil hne
    have hPmem : P ∈ df.filterMap (·.parent_category) :=
      List.mem_filterMap.mpr ⟨r, hr, hP⟩
    refine ⟨_, mem_parent_entries (·.amount) df fmt periods hne' P hPmem, ?_⟩
    refine List.mem_map.mpr ⟨r.category_name, ?_, rfl⟩
    rw [mem_uniques]
    refine List.mem_map.mpr ⟨r, ?_, rfl⟩
    rw [List.mem_filter]
    exact ⟨hr, by simp [hP]⟩
  · intro r hr hnone hPmem
    have hne' := isEmpty_false_of_ne_nil hne
    refine ⟨_, mem_parent_entries (·.amount) df fmt periods hne' r.category_name
      hPmem, ?_, ?_⟩
    · obtain ⟨r', hr', hP'⟩ := List.mem_filterMap.mp hPmem
      have hsub : r'.category_name ∈
          uniques ((df.filter
            (fun x => x.parent_category = some r.category_name)).map
              (·.category_name)) := by
        rw [mem_uniques]
        refine List.mem_map.mpr ⟨r', ?_, rfl⟩
        rw [List.mem_filter]
        exact ⟨hr', by simp [hP']⟩
      intro hcon
      rw [List.map_eq_nil_iff] at hcon
      rw [hcon] at hsub
      cases hsub
    · have hdir : (df.filter (fun x =>
          x.category_name = r.category_name ∧
            x.parent_category = none)).isEmpty = false := by
        refine isEmpty_false_of_ne_nil ?_
        intro hcon
        have : r ∈ df.filter (fun x =>
            x.category_name = r.category_name ∧ x.parent_category = none) := by
          rw [List.mem_filter]
          exact ⟨hr, by simp [hnone]⟩
        rw [hcon] at this
        cases this
      simp only [hdir]
      rfl
  · intro r hr hnone hnp
    have hne' := isEmpty_false_of_ne_nil hne
    refine mem_orphan_entries (·.amount) df fmt periods hne' r.category_name
      ?_ hnp
    refine List.mem_map.mpr ⟨r, ?_, rfl⟩
    rw [List.mem_filter]
    exact ⟨hr, by simp [hnone]⟩
  · simp [build_expense_section, build_section_core, hierarchyExampleRecords,
      uniques, periodFillBy, assign_period, List.lookup]
    try norm_num
  · simp [build_outflows_section, build_section_core, hierarchyExampleRecords,
      uniques, periodFillBy, assign_period, List.lookup]
    try norm_num

/-- Witness for C1: the general clauses applied to the example dataset. -/
theorem C1_category_hierarchy_witness :
    ∃ cd : CategoryData,
      ("Materials", cd) ∈
        (build_expense_section hierarchyExampleRecords "yearly"
          ["Total"]).expenses_by_category ∧
      ("Raw Materials",
        periodFillBy (·.amount) (·.doc_date)
          (hierarchyExampleRecords.filter (fun x =>
            x.category_name = "Raw Materials" ∧
              x.parent_category = some "Materials"))
          "yearly" ["Total"]) ∈ cd.subcategories := by
  have h := (C1_category_hierarchy.1 hierarchyExampleRecords "yearly" ["Total"]
    (by decide)).1
  exact h { doc_date := ⟨2024, 9, 10⟩, amount := 500, grand_total := 535,
            etype := .COGS, location := "Bkk",
            category_name := "Raw Materials",
            parent_category := some "Materials" }
    (by decide) "Materials" rfl

/-! ### C4: period completeness -/

/-- All per-period mappings inside one category entry. -/
def categoryMaps (cd : CategoryData) : List (List (String × ℚ)) :=
  cd.subcategories.map Prod.snd ++
    (match cd.direct with | some m => [m] | none => [])

/-- All per-period mappings inside an expense section. -/
def sectionMaps (sec : ExpenseSection) : List (List (String × ℚ)) :=
  (sec.expenses_by_category.map (fun entry => categoryMaps entry.2)).flatten ++
    [sec.total]

/-- All per-period mappings of a P&L report. -/
def pnlMaps (rep : PnLReport) : List (List (String × ℚ)) :=
  rep.revenue.revenue_by_customer.map Prod.snd ++
    [rep.revenue.total_net_revenue] ++
    sectionMaps rep.cogs ++ [rep.gross_profit] ++
    sectionMaps rep.operating_expenses ++
    [rep.ebit, rep.income_tax, rep.net_earnings]

/-- All per-period mappings of the inflows section. -/
def inflowsMaps (sec : InflowsSection) : List (List (String × ℚ)) :=
  [sec.sales_income, sec.fundings, sec.other_income, sec.total_inflows]

/-- The per-period mappings of a cashflow report that aggregate records
(everything except the running balances). -/
def cashflowZeroMaps (rep : CashflowReport) : List (List (String × ℚ)) :=
  inflowsMaps rep.cash_inflows ++
    sectionMaps rep.cash_outflows.cogs ++
    sectionMaps rep.cash_outflows.opex ++
    sectionMaps rep.cash_outflows.capex ++
    [rep.cash_outflows.total_outflows, rep.net_cashflow]

/-- All per-period mappings of a cashflow report, balances included. -/
def cashflowMaps (rep : CashflowReport) : List (List (String × ℚ)) :=
  cashflowZeroMaps rep ++ [rep.opening_balance, rep.closing_balance]

lemma periodFillBy_nil {α : Type} (value : α → ℚ) (dateOf : α → Date)
    (fmt : String) (periods : List String) :
    periodFillBy value dateOf [] fmt periods =
      periods.map (fun p => (p, (0 : ℚ))) := rfl

lemma periodFillBy_lookup_zero {α : Type} (value : α → ℚ) (dateOf : α → Date)
    (rows : List α) (fmt : String) (periods : List String) (p : String)
    (hp : p ∈ periods)
    (hz : ∀ r ∈ rows, assign_period (dateOf r) fmt periods ≠ p) :
    (periodFillBy value dateOf rows fmt periods).lookup p = some 0 := by
  unfold periodFillBy
  rw [lookup_map_self _ _ _ hp]
  have hfe : rows.filter
      (fun r => assign_period (dateOf r) fmt periods = p) = [] := by
    rw [List.filter_eq_nil_iff]
    intro a ha
    simp [hz a ha]
  rw [hfe]
  rfl

/-- The non-empty branch of the section builder, written out. -/
lemma build_section_core_eq_nonempty (value : ExpenseRecord → ℚ)
    (df : List ExpenseRecord) (fmt : String) (periods : List String)
    (hne : df.isEmpty = false) :
    build_section_core value df fmt periods =
      { expenses_by_category :=
          (uniques (df.filterMap (·.parent_category))).map (fun parent_cat =>
            (parent_cat,
             { subcategories :=
                 (uniques ((df.filter
                     (fun r => r.parent_category = some parent_cat)).map
                       (·.category_name))).map (fun subcat =>
                   (subcat, periodFillBy value (·.doc_date)
                     (df.filter (fun r =>
                       r.category_name = subcat ∧
                         r.parent_category = some parent_cat)) fmt periods)),
               direct :=
                 if (df.filter (fun r =>
                       r.category_name = parent_cat ∧
                         r.parent_category = none)).isEmpty then none
                 else some (periodFillBy value (·.doc_date)
                   (df.filter (fun r =>
                     r.category_name = parent_cat ∧
                       r.parent_category = none)) fmt periods) })) ++
          ((uniques ((df.filter
              (fun r => r.parent_category = none)).map (·.category_name))).filter
            (fun c => c ∉ uniques (df.filterMap (·.parent_category)))).map
            (fun orphan_cat =>
              (orphan_cat,
               { subcategories := [],
                 direct := some (periodFillBy value (·.doc_date)
                   (df.filter (fun r => r.category_name = orphan_cat))
                   fmt periods) })),
        total := periodFillBy value (·.doc_date) df fmt periods } := by
  rw [build_section_core, if_neg (by simp [hne])]

/-- The empty branch of the section builder. -/
lemma build_section_core_eq_empty (value : ExpenseRecord → ℚ)
    (fmt : String) (periods : List String) :
    build_section_core value [] fmt periods =
      { expenses_by_category := [],
        total := periods.map (fun p => (p, (0 : ℚ))) } := rfl

/-- Every per-period mapping of a built section is the zero-filled sum of a
sublist of the input rows. -/
lemma sectionMaps_shape (value : ExpenseRecord → ℚ)
    (df : List ExpenseRecord) (fmt : String) (periods : List String) :
    ∀ m ∈ sectionMaps (build_section_core value df fmt periods),
      ∃ rows : List ExpenseRecord, (∀ r ∈ rows, r ∈ df) ∧
        m = periodFillBy value (·.doc_date) rows fmt periods := by
  intro m hm
  by_cases hne : df.isEmpty
  · have hdf : df = [] := by
      cases df with
      | nil => rfl
      | cons a t => simp at hne
    subst hdf
    rw [build_section_core_eq_empty] at hm
    unfold sectionMaps categoryMaps at hm
    simp only [List.map_nil, List.flatten, List.nil_append] at hm
    rw [List.mem_singleton] at hm
    exact ⟨[], by simp, by rw [hm, periodFillBy_nil]⟩
  · have hne' : df.isEmpty = false := by
      cases h : df.isEmpty
      · rfl
      · exact absurd h hne
    rw [build_section_core_eq_nonempty value df fmt periods hne'] at hm
    unfold sectionMaps at hm
    rw [List.mem_append] at hm
    rcases hm with hm | hm
    · rw [List.mem_flatten] at hm
      obtain ⟨ms, hms, hmm⟩ := hm
      rw [List.mem_map] at hms
      obtain ⟨entry, hentry, rfl⟩ := hms
      rw [List.mem_append] at hentry
      rcases hentry with he | he
      · rw [List.mem_map] at he
        obtain ⟨P, _, rfl⟩ := he
        unfold categoryMaps at hmm
        rw [List.mem_append] at hmm
        rcases hmm with h2 | h2
        · rw [List.mem_map] at h2
          obtain ⟨se, hse, rfl⟩ := h2
          rw [List.mem_map] at hse
          obtain ⟨subcat, _, rfl⟩ := hse
          exact ⟨df.filter (fun r =>
              r.category_name = subcat ∧ r.parent_category = some P),
            fun r hr => (List.mem_filter.mp hr).1, rfl⟩
        · by_cases hd : (df.filter (fun r =>
              r.category_name = P ∧ r.parent_category = none)).isEmpty
          · rw [if_pos hd] at h2
            cases h2
          · rw [if_neg hd] at h2
            rw [List.mem_singleton] at h2
            exact ⟨df.filter (fun r =>
                r.category_name = P ∧ r.parent_category = none),
              fun r hr => (List.mem_filter.mp hr).1, h2⟩
      · rw [List.mem_map] at he
        obtain ⟨C, _, rfl⟩ := he
        unfold categoryMaps at hmm
        simp only [List.map_nil, List.nil_append] at hmm
        rw [List.mem_singleton] at hmm
        exact ⟨df.filter (fun r => r.category_name = C),
          fun r hr => (List.mem_filter.mp hr).1, hmm⟩
    · rw [List.mem_singleton] at hm
      exact ⟨df, fun r hr => hr, hm⟩

/-- The non-empty branch of the revenue builder, written out. -/
lemma build_revenue_section_eq_nonempty (df : List IncomeRecord)
    (fmt : String) (periods : List String) (hne : df.isEmpty = false) :
    build_revenue_section df fmt periods =
      { revenue_by_customer :=
          (uniques (df.map (·.customer))).map (fun customer =>
            (customer, periodFillBy (·.amount) (·.doc_date)
              (df.filter (fun r => r.customer = customer)) fmt periods)),
        total_net_revenue := periodFillBy (·.amount) (·.doc_date) df fmt periods } := by
  rw [build_revenue_section, if_neg (by simp [hne])]

lemma revenue_customer_shape (df : List IncomeRecord) (fmt : String)
    (periods : List String) :
    ∀ m ∈ (build_revenue_section df fmt periods).revenue_by_customer.map Prod.snd,
      ∃ rows : List IncomeRecord, (∀ r ∈ rows, r ∈ df) ∧
        m = periodFillBy (·.amount) (·.doc_date) rows fmt periods := by
  intro m hm
  by_cases hne : df.isEmpty
  · rw [build_revenue_section, if_pos hne] at hm
    simp at hm
  · have hne' : df.isEmpty = false := by
      cases h : df.isEmpty
      · rfl
      · exact absurd h hne
    rw [build_revenue_section_eq_nonempty df fmt periods hne'] at hm
    simp only [List.map_map] at hm
    rw [List.mem_map] at hm
    obtain ⟨customer, _, rfl⟩ := hm
    exact ⟨df.filter (fun r => r.customer = customer),
      fun r hr => (List.mem_filter.mp hr).1, rfl⟩

lemma revenue_total_shape (df : List IncomeRecord) (fmt : String)
    (periods : List String) :
    ∃ rows : List IncomeRecord, (∀ r ∈ rows, r ∈ df) ∧
      (build_revenue_section df fmt periods).total_net_revenue =
        periodFillBy (·.amount) (·.doc_date) rows fmt periods := by
  by_cases hne : df.isEmpty
  · have hdf : df = [] := by
      cases df with
      | nil => rfl
      | cons a t => simp at hne
    subst hdf
    exact ⟨[], by simp, rfl⟩
  · have hne' : df.isEmpty = false := by
      cases h : df.isEmpty
      · rfl
      · exact absurd h hne
    rw [build_revenue_section_eq_nonempty df fmt periods hne']
    exact ⟨df, fun r hr => hr, rfl⟩

lemma mem_get_income_data {st : Storage} {s e : Date} {loc : Option String}
    {r : IncomeRecord} (h : r ∈ get_income_data st s e loc) : r ∈ st.incomes :=
  (List.mem_filter.mp h).1

lemma mem_get_expense_data {st : Storage} {s e : Date} {loc : Option String}
    {ts : Option (List ExpenseType)} {r : ExpenseRecord}
    (h : r ∈ get_expense_data st s e loc ts) : r ∈ st.expenses :=
  (List.mem_filter.mp h).1

/-- Lookups into the four inflow mappings. -/
lemma inflows_lookup (df : List IncomeRecord) (fmt : String)
    (periods : List String) (p : String) (hp : p ∈ periods) :
    ∃ vs : ℚ,
      (build_inflows_section df fmt periods).sales_income.lookup p = some vs ∧
      (build_inflows_section df fmt periods).fundings.lookup p = some 0 ∧
      (build_inflows_section df fmt periods).other_income.lookup p = some 0 ∧
      (build_inflows_section df fmt periods).total_inflows.lookup p =
        some (vs + 0 + 0) ∧
      ((∀ r ∈ df, assign_period r.doc_date fmt periods ≠ p) → vs = 0) := by
  have hfund : (build_inflows_section df fmt periods).fundings =
      periods.map (fun q => (q, (0 : ℚ))) := rfl
  have hoth : (build_inflows_section df fmt periods).other_income =
      periods.map (fun q => (q, (0 : ℚ))) := rfl
  have htot : (build_inflows_section df fmt periods).total_inflows =
      periods.map (fun q =>
        (q, ((build_inflows_section df fmt periods).sales_income.lookup q).getD 0 +
            ((build_inflows_section df fmt periods).fundings.lookup q).getD 0 +
            ((build_inflows_section df fmt periods).other_income.lookup q).getD 0)) := rfl
  have hf : (build_inflows_section df fmt periods).fundings.lookup p = some 0 := by
    rw [hfund, lookup_map_self _ _ _ hp]
  have ho : (build_inflows_section df fmt periods).other_income.lookup p = some 0 := by
    rw [hoth, lookup_map_self _ _ _ hp]
  have hsal0 : (build_inflows_section df fmt periods).sales_income =
      if df.isEmpty then periods.map (fun q => (q, (0 : ℚ)))
      else periodFillBy (·.grand_total) (·.doc_date) df fmt periods := rfl
  by_cases hne : df.isEmpty
  · have hs : (build_inflows_section df fmt periods).sales_income.lookup p =
        some 0 := by
      rw [hsal0, if_pos hne, lookup_map_self _ _ _ hp]
    refine ⟨0, hs, hf, ho, ?_, fun _ => rfl⟩
    rw [htot, lookup_map_self _ _ _ hp, hs, hf, ho]
    rfl
  · have hsal : (build_inflows_section df fmt periods).sales_income =
        periodFillBy (·.grand_total) (·.doc_date) df fmt periods := by
      rw [hsal0, if_neg hne]
    obtain ⟨vs, hs⟩ :=
      (isPeriodMap_periodFillBy (·.grand_total) (·.doc_date) df fmt
        periods).exists_lookup hp
    rw [← hsal] at hs
    refine ⟨vs, hs, hf, ho, ?_, ?_⟩
    · rw [htot, lookup_map_self _ _ _ hp, hs, hf, ho]
      rfl
    · intro hz
      have h0 := periodFillBy_lookup_zero (·.grand_total) (·.doc_date) df fmt
        periods p hp hz
      rw [← hsal, hs] at h0
      exact (Option.some.injEq _ _).mp h0

/-- The flat total of a section is zero at periods no input row maps to. -/
lemma section_total_lookup_zero (value : ExpenseRecord → ℚ)
    (df : List ExpenseRecord) (fmt : String) (periods : List String)
    (p : String) (hp : p ∈ periods)
    (hz : ∀ r ∈ df, assign_period r.doc_date fmt periods ≠ p) :
    (build_section_core value df fmt periods).total.lookup p = some 0 := by
  by_cases hne : df.isEmpty
  · have hdf : df = [] := by
      cases df with
      | nil => rfl
      | cons a t => simp at hne
    subst hdf
    rw [build_section_core_eq_empty, lookup_map_self _ _ _ hp]
  · have hne' : df.isEmpty = false := by
      cases h : df.isEmpty
      · rfl
      · exact absurd h hne
    rw [build_section_core_eq_nonempty value df fmt periods hne']
    exact periodFillBy_lookup_zero value (·.doc_date) df fmt periods p hp hz

/-- The revenue total is zero at periods no income row maps to. -/
lemma revenue_total_lookup_zero (df : List IncomeRecord) (fmt : String)
    (periods : List String) (p : String) (hp : p ∈ periods)
    (hz : ∀ r ∈ df, assign_period r.doc_date fmt periods ≠ p) :
    (build_revenue_section df fmt periods).total_net_revenue.lookup p = some 0 := by
  obtain ⟨rows, hsub, heq⟩ := revenue_total_shape df fmt periods
  rw [heq]
  exact periodFillBy_lookup_zero _ _ rows fmt periods p hp
    (fun r hr => hz r (hsub r hr))

/-- Every per-period mapping of a generated P&L body has a value at every
planned period, and that value is zero when no stored record maps to the
period. -/
lemma pnlMaps_complete (st : Storage) (s e : Date) (fmt : String)
    (loc : Option String) (p : String) (hp : p ∈ build_periods s e fmt) :
    ∀ m ∈ pnlMaps (pnl_report_body st s e fmt loc),
      ∃ v : ℚ, m.lookup p = some v ∧
        ((∀ r ∈ st.incomes,
            assign_period r.doc_date fmt (build_periods s e fmt) ≠ p) →
         (∀ r ∈ st.expenses,
            assign_period r.doc_date fmt (build_periods s e fmt) ≠ p) →
          v = 0) := by
  intro m hm
  set body := pnl_report_body st s e fmt loc with hbody
  set lf := if loc = some "All" then none else loc with hlf
  set P := build_periods s e fmt with hP
  set I := get_income_data st s e lf with hI
  set CGdf := get_expense_data st s e lf (some [ExpenseType.COGS]) with hCG
  set OPdf := get_expense_data st s e lf (some [ExpenseType.OPEX]) with hOP
  have e1 : body.revenue = build_revenue_section I fmt P := rfl
  have e2 : body.cogs = build_section_core (·.amount) CGdf fmt P := rfl
  have e3 : body.operating_expenses = build_section_core (·.amount) OPdf fmt P := rfl
  have e5 : body.gross_profit = P.map (fun q =>
      (q, ((build_revenue_section I fmt P).total_net_revenue.lookup q).getD 0 -
          ((build_section_core (·.amount) CGdf fmt P).total.lookup q).getD 0)) := rfl
  have e6 : body.ebit = P.map (fun q =>
      (q, (body.gross_profit.lookup q).getD 0 -
          ((build_section_core (·.amount) OPdf fmt P).total.lookup q).getD 0)) := rfl
  have e7 : body.income_tax = P.map (fun q =>
      (q, max 0 ((body.ebit.lookup q).getD 0 * TAX_RATE))) := rfl
  have e8 : body.net_earnings = P.map (fun q =>
      (q, (body.ebit.lookup q).getD 0 - (body.income_tax.lookup q).getD 0)) := rfl
  have hzi_sub : ∀ (hzi : ∀ r ∈ st.incomes, assign_period r.doc_date fmt P ≠ p)
      (r : IncomeRecord), r ∈ I → assign_period r.doc_date fmt P ≠ p :=
    fun hzi r hr => hzi r (mem_get_income_data hr)
  have hzeCG : ∀ (hze : ∀ r ∈ st.expenses, assign_period r.doc_date fmt P ≠ p)
      (r : ExpenseRecord), r ∈ CGdf → assign_period r.doc_date fmt P ≠ p :=
    fun hze r hr => hze r (mem_get_expense_data hr)
  have hzeOP : ∀ (hze : ∀ r ∈ st.expenses, assign_period r.doc_date fmt P ≠ p)
      (r : ExpenseRecord), r ∈ OPdf → assign_period r.doc_date fmt P ≠ p :=
    fun hze r hr => hze r (mem_get_expense_data hr)
  have hG : body.gross_profit.lookup p = some
      (((build_revenue_section I fmt P).total_net_revenue.lookup p).getD 0 -
       ((build_section_core (·.amount) CGdf fmt P).total.lookup p).getD 0) := by
    rw [e5, lookup_map_self _ _ _ hp]
  have hEB : body.ebit.lookup p = some
      ((body.gross_profit.lookup p).getD 0 -
       ((build_section_core (·.amount) OPdf fmt P).total.lookup p).getD 0) := by
    rw [e6, lookup_map_self _ _ _ hp]
  have hTX : body.income_tax.lookup p = some
      (max 0 ((body.ebit.lookup p).getD 0 * TAX_RATE)) := by
    rw [e7, lookup_map_self _ _ _ hp]
  have hNE : body.net_earnings.lookup p = some
      ((body.ebit.lookup p).getD 0 - (body.income_tax.lookup p).getD 0) := by
    rw [e8, lookup_map_self _ _ _ hp]
  have hG0 : ∀ (_ : ∀ r ∈ st.incomes, assign_period r.doc_date fmt P ≠ p)
      (_ : ∀ r ∈ st.expenses, assign_period r.doc_date fmt P ≠ p),
      body.gross_profit.lookup p = some 0 := by
    intro hzi hze
    rw [hG, revenue_total_lookup_zero I fmt P p hp (hzi_sub hzi),
        section_total_lookup_zero (·.amount) CGdf fmt P p hp (hzeCG hze)]
    norm_num
  have hEB0 : ∀ (_ : ∀ r ∈ st.incomes, assign_period r.doc_date fmt P ≠ p)
      (_ : ∀ r ∈ st.expenses, assign_period r.doc_date fmt P ≠ p),
      body.ebit.lookup p = some 0 := by
    intro hzi hze
    rw [hEB, hG0 hzi hze,
        section_total_lookup_zero (·.amount) OPdf fmt P p hp (hzeOP hze)]
    norm_num
  have hTX0 : ∀ (_ : ∀ r ∈ st.incomes, assign_period r.doc_date fmt P ≠ p)
      (_ : ∀ r ∈ st.expenses, assign_period r.doc_date fmt P ≠ p),
      body.income_tax.lookup p = some 0 := by
    intro hzi hze
    rw [hTX, hEB0 hzi hze]
    norm_num [TAX_RATE]
  unfold pnlMaps at hm
  rw [e1, e2, e3] at hm
  rw [List.mem_append] at hm
  rcases hm with hm | hm
  · rw [List.mem_append] at hm
    rcases hm with hm | hm
    · rw [List.mem_append] at hm
      rcases hm with hm | hm
      · rw [List.mem_append] at hm
        rcases hm with hm | hm
        · rw [List.mem_append] at hm
          rcases hm with hm | hm
          · -- customer maps
            obtain ⟨rows, hsub, rfl⟩ := revenue_customer_shape I fmt P m hm
            obtain ⟨v, hv⟩ := (isPeriodMap_periodFillBy (·.amount) (·.doc_date)
              rows fmt P).exists_lookup hp
            refine ⟨v, hv, fun hzi _ => ?_⟩
            have h0 := periodFillBy_lookup_zero (·.amount) (·.doc_date) rows
              fmt P p hp (fun r hr => hzi_sub hzi r (hsub r hr))
            rw [hv] at h0
            exact (Option.some.injEq _ _).mp h0.symm |>.symm
          · -- revenue total
            rw [List.mem_singleton] at hm
            subst hm
            obtain ⟨v, hv⟩ := (isPeriodMap_revenue_total I fmt P).exists_lookup hp
            refine ⟨v, hv, fun hzi _ => ?_⟩
            have h0 := revenue_total_lookup_zero I fmt P p hp (hzi_sub hzi)
            rw [hv] at h0
            exact (Option.some.injEq _ _).mp h0.symm |>.symm
        · -- COGS section maps
          obtain ⟨rows, hsub, rfl⟩ :=
            sectionMaps_shape (·.amount) CGdf fmt P m hm
          obtain ⟨v, hv⟩ := (isPeriodMap_periodFillBy (·.amount) (·.doc_date)
            rows fmt P).exists_lookup hp
          refine ⟨v, hv, fun _ hze => ?_⟩
          have h0 := periodFillBy_lookup_zero (·.amount) (·.doc_date) rows
            fmt P p hp (fun r hr => hzeCG hze r (hsub r hr))
          rw [hv] at h0
          exact (Option.some.injEq _ _).mp h0.symm |>.symm
      · -- gross profit
        rw [List.mem_singleton] at hm
        subst hm
        exact ⟨_, hG, fun hzi hze => by
          have h0 := hG0 hzi hze
          rw [hG] at h0
          exact (Option.some.injEq _ _).mp h0⟩
    · -- OPEX section maps
      obtain ⟨rows, hsub, rfl⟩ := sectionMaps_shape (·.amount) OPdf fmt P m hm
      obtain ⟨v, hv⟩ := (isPeriodMap_periodFillBy (·.amount) (·.doc_date)
        rows fmt P).exists_lookup hp
      refine ⟨v, hv, fun _ hze => ?_⟩
      have h0 := periodFillBy_lookup_zero (·.amount) (·.doc_date) rows
        fmt P p hp (fun r hr => hzeOP hze r (hsub r hr))
      rw [hv] at h0
      exact (Option.some.injEq _ _).mp h0.symm |>.symm
  · -- ebit, income tax, net earnings
    rw [List.mem_cons] at hm
    rcases hm with hm | hm
    · subst hm
      exact ⟨_, hEB, fun hzi hze => by
        have h0 := hEB0 hzi hze
        rw [hEB] at h0
        exact (Option.some.injEq _ _).mp h0⟩
    · rw [List.mem_cons] at hm
      rcases hm with hm | hm
      · subst hm
        exact ⟨_, hTX, fun hzi hze => by
          have h0 := hTX0 hzi hze
          rw [hTX] at h0
          exact (Option.some.injEq _ _).mp h0⟩
      · rw [List.mem_singleton] at hm
        subst hm
        exact ⟨_, hNE, fun hzi hze => by
          have h0 : body.net_earnings.lookup p = some 0 := by
            rw [hNE, hEB0 hzi hze, hTX0 hzi hze]
            norm_num
          rw [hNE] at h0
          exact (Option.some.injEq _ _).mp h0⟩

/-- Every aggregating per-period mapping of a generated cashflow body has a
value at every planned period, zero when no stored record maps to the
period. -/
lemma cashflowZeroMaps_complete (st : Storage) (s e : Date) (fmt : String)
    (loc : Option String) (b : ℚ) (p : String)
    (hp : p ∈ build_periods s e fmt) :
    ∀ m ∈ cashflowZeroMaps (cashflow_report_body st s e fmt loc b),
      ∃ v : ℚ, m.lookup p = some v ∧
        ((∀ r ∈ st.incomes,
            assign_period r.doc_date fmt (build_periods s e fmt) ≠ p) →
         (∀ r ∈ st.expenses,
            assign_period r.doc_date fmt (build_periods s e fmt) ≠ p) →
          v = 0) := by
  intro m hm
  set body := cashflow_report_body st s e fmt loc b with hbody
  set lf := if loc = some "All" then none else loc with hlf
  set P := build_periods s e fmt with hP
  set I := get_income_data st s e lf with hI
  set CGdf := get_expense_data st s e lf (some [ExpenseType.COGS]) with hCG
  set OPdf := get_expense_data st s e lf (some [ExpenseType.OPEX]) with hOP
  set CXdf := get_expense_data st s e lf (some [ExpenseType.CAPEX]) with hCX
  have e1 : body.cash_inflows = build_inflows_section I fmt P := rfl
  have e2 : body.cash_outflows.cogs =
      build_section_core (·.grand_total) CGdf fmt P := rfl
  have e3 : body.cash_outflows.opex =
      build_section_core (·.grand_total) OPdf fmt P := rfl
  have e4 : body.cash_outflows.capex =
      build_section_core (·.grand_total) CXdf fmt P := rfl
  have e5 : body.cash_outflows.total_outflows = P.map (fun q =>
      (q, ((build_section_core (·.grand_total) CGdf fmt P).total.lookup q).getD 0 +
          ((build_section_core (·.grand_total) OPdf fmt P).total.lookup q).getD 0 +
          ((build_section_core (·.grand_total) CXdf fmt P).total.lookup q).getD 0)) := rfl
  have e6 : body.net_cashflow = P.map (fun q =>
      (q, ((build_inflows_section I fmt P).total_inflows.lookup q).getD 0 -
          (body.cash_outflows.total_outflows.lookup q).getD 0)) := rfl
  have hzi_sub : ∀ (hzi : ∀ r ∈ st.incomes, assign_period r.doc_date fmt P ≠ p)
      (r : IncomeRecord), r ∈ I → assign_period r.doc_date fmt P ≠ p :=
    fun hzi r hr => hzi r (mem_get_income_data hr)
  have hzeSub : ∀ (hze : ∀ r ∈ st.expenses, assign_period r.doc_date fmt P ≠ p)
      (df : List ExpenseRecord) (hdf : ∀ r ∈ df, r ∈ st.expenses)
      (r : ExpenseRecord), r ∈ df → assign_period r.doc_date fmt P ≠ p :=
    fun hze df hdf r hr => hze r (hdf r hr)
  obtain ⟨vs, hs, hf, hoth, ht, hvz⟩ := inflows_lookup I fmt P p hp
  have hTO : body.cash_outflows.total_outflows.lookup p = some
      (((build_section_core (·.grand_total) CGdf fmt P).total.lookup p).getD 0 +
       ((build_section_core (·.grand_total) OPdf fmt P).total.lookup p).getD 0 +
       ((build_section_core (·.grand_total) CXdf fmt P).total.lookup p).getD 0) := by
    rw [e5, lookup_map_self _ _ _ hp]
  have hTO0 : ∀ (_ : ∀ r ∈ st.expenses, assign_period r.doc_date fmt P ≠ p),
      body.cash_outflows.total_outflows.lookup p = some 0 := by
    intro hze
    rw [hTO,
      section_total_lookup_zero (·.grand_total) CGdf fmt P p hp
        (hzeSub hze CGdf (fun r hr => mem_get_expense_data hr)),
      section_total_lookup_zero (·.grand_total) OPdf fmt P p hp
        (hzeSub hze OPdf (fun r hr => mem_get_expense_data hr)),
      section_total_lookup_zero (·.grand_total) CXdf fmt P p hp
        (hzeSub hze CXdf (fun r hr => mem_get_expense_data hr))]
    norm_num
  have hNC : body.net_cashflow.lookup p = some
      (((build_inflows_section I fmt P).total_inflows.lookup p).getD 0 -
       (body.cash_outflows.total_outflows.lookup p).getD 0) := by
    rw [e6, lookup_map_self _ _ _ hp]
  unfold cashflowZeroMaps inflowsMaps at hm
  rw [e1, e2, e3, e4] at hm
  rw [List.mem_append] at hm
  rcases hm with hm | hm
  · rw [List.mem_append] at hm
    rcases hm with hm | hm
    · rw [List.mem_append] at hm
      rcases hm with hm | hm
      · rw [List.mem_append] at hm
        rcases hm with hm | hm
        · -- the four inflow maps
          rw [List.mem_cons] at hm
          rcases hm with hm | hm
          · subst hm
            exact ⟨vs, hs, fun hzi _ => hvz (hzi_sub hzi)⟩
          · rw [List.mem_cons] at hm
            rcases hm with hm | hm
            · subst hm
              exact ⟨0, hf, fun _ _ => rfl⟩
            · rw [List.mem_cons] at hm
              rcases hm with hm | hm
              · subst hm
                exact ⟨0, hoth, fun _ _ => rfl⟩
              · rw [List.mem_singleton] at hm
                subst hm
                refine ⟨vs + 0 + 0, ht, fun hzi _ => ?_⟩
                rw [hvz (hzi_sub hzi)]
                norm_num
        · -- cashflow COGS maps
          obtain ⟨rows, hsub, rfl⟩ :=
            sectionMaps_shape (·.grand_total) CGdf fmt P m hm
          obtain ⟨v, hv⟩ := (isPeriodMap_periodFillBy (·.grand_total)
            (·.doc_date) rows fmt P).exists_lookup hp
          refine ⟨v, hv, fun _ hze => ?_⟩
          have h0 := periodFillBy_lookup_zero (·.grand_total) (·.doc_date)
            rows fmt P p hp (fun r hr =>
              hze r (mem_get_expense_data (hsub r hr)))
          rw [hv] at h0
          exact (Option.some.injEq _ _).mp h0.symm |>.symm
      · -- cashflow OPEX maps
        obtain ⟨rows, hsub, rfl⟩ :=
          sectionMaps_shape (·.grand_total) OPdf fmt P m hm
        obtain ⟨v, hv⟩ := (isPeriodMap_periodFillBy (·.grand_total)
          (·.doc_date) rows fmt P).exists_lookup hp
        refine ⟨v, hv, fun _ hze => ?_⟩
        have h0 := periodFillBy_lookup_zero (·.grand_total) (·.doc_date)
          rows fmt P p hp (fun r hr =>
            hze r (mem_get_expense_data (hsub r hr)))
        rw [hv] at h0
        exact (Option.some.injEq _ _).mp h0.symm |>.symm
    · -- cashflow CAPEX maps
      obtain ⟨rows, hsub, rfl⟩ :=
        sectionMaps_shape (·.grand_total) CXdf fmt P m hm
      obtain ⟨v, hv⟩ := (isPeriodMap_periodFillBy (·.grand_total)
        (·.doc_date) rows fmt P).exists_lookup hp
      refine ⟨v, hv, fun _ hze => ?_⟩
      have h0 := periodFillBy_lookup_zero (·.grand_total) (·.doc_date)
        rows fmt P p hp (fun r hr =>
          hze r (mem_get_expense_data (hsub r hr)))
      rw [hv] at h0
      exact (Option.some.injEq _ _).mp h0.symm |>.symm
  · -- total outflows and net cashflow
    rw [List.mem_cons] at hm
    rcases hm with hm | hm
    · subst hm
      exact ⟨_, hTO, fun _ hze => by
        have h0 := hTO0 hze
        rw [hTO] at h0
        exact (Option.some.injEq _ _).mp h0⟩
    · rw [List.mem_singleton] at hm
      subst hm
      exact ⟨_, hNC, fun hzi hze => by
        rw [ht, hTO0 hze, hvz (hzi_sub hzi)]
        norm_num⟩

/-- The opening and closing balance mappings carry a value at every planned
period. -/
lemma balances_lookup_isSome (st : Storage) (s e : Date) (fmt : String)
    (loc : Option String) (b : ℚ) (p : String)
    (hp : p ∈ build_periods s e fmt) :
    (((cashflow_report_body st s e fmt loc b).opening_balance.lookup p).isSome
        = true) ∧
    (((cashflow_report_body st s e fmt loc b).closing_balance.lookup p).isSome
        = true) := by
  set body := cashflow_report_body st s e fmt loc b with hbody
  by_cases hfmt : fmt = "yearly"
  · subst hfmt
    have hp' : p = "Total" := by
      rw [build_periods, if_pos rfl] at hp
      simpa using hp
    subst hp'
    have ho : body.opening_balance = [("Total", b)] := rfl
    have hc : body.closing_balance =
        [("Total", b + (body.net_cashflow.lookup "Total").getD 0)] := rfl
    rw [ho, hc]
    constructor <;> rfl
  · have ho : body.opening_balance =
        (balanceFold body.net_cashflow b (build_periods s e fmt)).2.1 := by
      have h0 : body.opening_balance =
          (if fmt = "yearly" then
            ([(("Total" : String), b)],
             [(("Total" : String),
               b + (body.net_cashflow.lookup "Total").getD 0)])
          else
            ((balanceFold body.net_cashflow b (build_periods s e fmt)).2.1,
             (balanceFold body.net_cashflow b (build_periods s e fmt)).2.2)).1 := rfl
      rw [h0, if_neg hfmt]
    have hc : body.closing_balance =
        (balanceFold body.net_cashflow b (build_periods s e fmt)).2.2 := by
      have h0 : body.closing_balance =
          (if fmt = "yearly" then
            ([(("Total" : String), b)],
             [(("Total" : String),
               b + (body.net_cashflow.lookup "Total").getD 0)])
          else
            ((balanceFold body.net_cashflow b (build_periods s e fmt)).2.1,
             (balanceFold body.net_cashflow b (build_periods s e fmt)).2.2)).2 := rfl
      rw [h0, if_neg hfmt]
    rw [ho, hc, balanceFold_eq]
    constructor
    · refine lookup_isSome_of_fst_mem _ p ?_
      rw [spec_opening_fst]
      exact hp
    · refine lookup_isSome_of_fst_mem _ p ?_
      rw [spec_closing_fst]
      exact hp

/-- C4: in every generated report (P&L and cashflow), every planned period
appears as a key in every per-period mapping — revenue per customer and
total, every subcategory and `direct` block, all section totals, every
derived metric, and the cashflow balances — and in all aggregating mappings
the value is 0.0 at a period into which no stored record falls (the
balances, which carry the opening balance instead, are covered by the
key-presence part); no planned period is ever dropped. -/
theorem C4_period_completeness :
    (∀ (st : Storage) (s e : Date) (fmt : String) (loc : Option String)
        (rep : PnLReport),
        generate_pnl_report st s e fmt loc = .ok rep →
        ∀ p ∈ rep.report_info.periods,
          (∀ m ∈ pnlMaps rep, (m.lookup p).isSome = true) ∧
          ((∀ r ∈ st.incomes,
              assign_period r.doc_date fmt rep.report_info.periods ≠ p) →
           (∀ r ∈ st.expenses,
              assign_period r.doc_date fmt rep.report_info.periods ≠ p) →
            ∀ m ∈ pnlMaps rep, m.lookup p = some 0)) ∧
    (∀ (st : Storage) (s e : Date) (fmt : String) (loc : Option String)
        (b : ℚ) (rep : CashflowReport),
        generate_cashflow_report st s e fmt loc b = .ok rep →
        ∀ p ∈ rep.report_info.periods,
          (∀ m ∈ cashflowMaps rep, (m.lookup p).isSome = true) ∧
          ((∀ r ∈ st.incomes,
              assign_period r.doc_date fmt rep.report_info.periods ≠ p) →
           (∀ r ∈ st.expenses,
              assign_period r.doc_date fmt rep.report_info.periods ≠ p) →
            ∀ m ∈ cashflowZeroMaps rep, m.lookup p = some 0)) := by
  constructor
  · intro st s e fmt loc rep h p hp
    have hrep := generate_pnl_ok st s e fmt loc rep h
    subst hrep
    have hp' : p ∈ build_periods s e fmt := hp
    constructor
    · intro m hm
      obtain ⟨v, hv, _⟩ := pnlMaps_complete st s e fmt loc p hp' m hm
      rw [hv]
      rfl
    · intro hzi hze m hm
      obtain ⟨v, hv, hz⟩ := pnlMaps_complete st s e fmt loc p hp' m hm
      rw [hv, hz hzi hze]
  · intro st s e fmt loc b rep h p hp
    have hrep := generate_cashflow_ok st s e fmt loc b rep h
    subst hrep
    have hp' : p ∈ build_periods s e fmt := hp
    constructor
    · intro m hm
      unfold cashflowMaps at hm
      rw [List.mem_append] at hm
      rcases hm with hm | hm
      · obtain ⟨v, hv, _⟩ := cashflowZeroMaps_complete st s e fmt loc b p hp' m hm
        rw [hv]
        rfl
      · rw [List.mem_cons] at hm
        rcases hm with hm | hm
        · subst hm
          exact (balances_lookup_isSome st s e fmt loc b p hp').1
        · rw [List.mem_singleton] at hm
          subst hm
          exact (balances_lookup_isSome st s e fmt loc b p hp').2
    · intro hzi hze m hm
      obtain ⟨v, hv, hz⟩ := cashflowZeroMaps_complete st s e fmt loc b p hp' m hm
      rw [hv, hz hzi hze]

/-- Witness for C4: the P&L clause at an empty storage, yearly format. -/
theorem C4_period_completeness_witness :
    (∀ m ∈ pnlMaps (pnl_report_body ⟨[], []⟩ ⟨2024, 1, 1⟩ ⟨2024, 3, 31⟩
        "yearly" none), (m.lookup "Total").isSome = true) ∧
    ((∀ r ∈ (⟨[], []⟩ : Storage).incomes,
        assign_period r.doc_date "yearly"
          (pnl_report_body ⟨[], []⟩ ⟨2024, 1, 1⟩ ⟨2024, 3, 31⟩ "yearly"
            none).report_info.periods ≠ "Total") →
     (∀ r ∈ (⟨[], []⟩ : Storage).expenses,
        assign_period r.doc_date "yearly"
          (pnl_report_body ⟨[], []⟩ ⟨2024, 1, 1⟩ ⟨2024, 3, 31⟩ "yearly"
            none).report_info.periods ≠ "Total") →
      ∀ m ∈ pnlMaps (pnl_report_body ⟨[], []⟩ ⟨2024, 1, 1⟩ ⟨2024, 3, 31⟩
        "yearly" none), m.lookup "Total" = some 0) :=
  C4_period_completeness.1 ⟨[], []⟩ ⟨2024, 1, 1⟩ ⟨2024, 3, 31⟩ "yearly" none
    (pnl_report_body ⟨[], []⟩ ⟨2024, 1, 1⟩ ⟨2024, 3, 31⟩ "yearly" none)
    rfl "Total" (by decide)

/-! ### C10: the flat total versus the hierarchy -/

/-- The value a per-period mapping reports for `p` (0.0 when absent). -/
def blockValue (m : List (String × ℚ)) (p : String) : ℚ := (m.lookup p).getD 0

/-- The sum, over all top-level entries of a section, of all their
subcategory values plus their `direct` values at period `p`. -/
def hierarchyTotal (sec : ExpenseSection) (p : String) : ℚ :=
  (sec.expenses_by_category.map (fun entry =>
    (entry.2.subcategories.map (fun sub => blockValue sub.2 p)).sum +
    (match entry.2.direct with
     | some m => blockValue m p
     | none => 0))).sum

/-- The period-`p` portion of the sum of `value` over `rows`. -/
def periodSum {α : Type} (value : α → ℚ) (dateOf : α → Date) (rows : List α)
    (fmt : String) (periods : List String) (p : String) : ℚ :=
  ((rows.filter
      (fun r => assign_period (dateOf r) fmt periods = p)).map value).sum

lemma blockValue_fill {α : Type} (value : α → ℚ) (dateOf : α → Date)
    (rows : List α) (fmt : String) (periods : List String) (p : String)
    (hp : p ∈ periods) :
    blockValue (periodFillBy value dateOf rows fmt periods) p =
      periodSum value dateOf rows fmt periods p := by
  unfold blockValue periodFillBy periodSum
  rw [lookup_map_self _ _ _ hp]
  rfl

lemma eq_nil_of_isEmpty {α : Type} {l : List α} (h : l.isEmpty = true) :
    l = [] := by
  cases l with
  | nil => rfl
  | cons a t => simp at h

/-- The two ways of carving out one (parent, category) fiber at period `p`
agree. -/
lemma fiber_eq (df : List ExpenseRecord) (fmt : String)
    (periods : List String) (p : String) (c : String) (par : Option String) :
    (df.filter (fun r =>
        r.category_name = c ∧ r.parent_category = par)).filter
      (fun r => assign_period r.doc_date fmt periods = p) =
    (df.filter (fun r =>
        assign_period r.doc_date fmt periods = p)).filter
      (fun r => (r.parent_category, r.category_name) = (par, c)) := by
  rw [List.filter_filter, List.filter_filter]
  refine List.filter_congr ?_
  intro r _
  by_cases h1 : assign_period r.doc_date fmt periods = p <;>
    by_cases h2 : r.category_name = c <;>
      by_cases h3 : r.parent_category = par <;>
        simp [h1, h2, h3, Prod.ext_iff]

lemma sum_map_ite_eq {κ : Type} [DecidableEq κ] (k0 : κ) (c : ℚ) :
    ∀ K : List κ, K.Nodup → k0 ∈ K →
      (K.map (fun k => if k0 = k then c else 0)).sum = c := by
  intro K
  induction K with
  | nil => intro _ hk; cases hk
  | cons b t ih =>
    intro hnd hk
    rw [List.map_cons, List.sum_cons]
    by_cases hb : k0 = b
    · subst hb
      have ht : (t.map (fun k => if k0 = k then c else 0)).sum = 0 := by
        apply List.sum_eq_zero
        intro x hx
        rw [List.mem_map] at hx
        obtain ⟨k, hkmem, rfl⟩ := hx
        rw [if_neg]
        intro hcon
        exact (List.nodup_cons.mp hnd).1 (hcon ▸ hkmem)
      rw [if_pos rfl, ht, add_zero]
    · have hk' : k0 ∈ t := by
        rcases List.mem_cons.mp hk with h | h
        · exact absurd h hb
        · exact h
      rw [if_neg hb, ih (List.nodup_cons.mp hnd).2 hk', zero_add]

/-- Summing one fiber per key, over a duplicate-free key list covering every
element, recovers the total sum. -/
lemma sum_fiberwise {α κ : Type} [DecidableEq κ] (key : α → κ) (f : α → ℚ) :
    ∀ (l : List α) (K : List κ), K.Nodup → (∀ a ∈ l, key a ∈ K) →
      (K.map (fun k => ((l.filter (fun a => key a = k)).map f).sum)).sum =
        (l.map f).sum := by
  intro l
  induction l with
  | nil =>
    intro K _ _
    apply List.sum_eq_zero
    intro x hx
    rw [List.mem_map] at hx
    obtain ⟨k, _, rfl⟩ := hx
    simp
  | cons a t ih =>
    intro K hnd hcov
    have hterm : K.map (fun k =>
          (((a :: t).filter (fun x => key x = k)).map f).sum) =
        K.map (fun k => (if key a = k then f a else 0) +
          ((t.filter (fun x => key x = k)).map f).sum) := by
      refine List.map_congr_left ?_
      intro k _
      rw [List.filter_cons]
      by_cases h : key a = k
      · rw [if_pos (by simp [h]), if_pos h, List.map_cons, List.sum_cons]
      · rw [if_neg (by simp [h]), if_neg h, zero_add]
    rw [hterm, List.sum_map_add,
        ih K hnd (fun x hx => hcov x (List.mem_cons_of_mem a hx)),
        sum_map_ite_eq (key a) (f a) K hnd (hcov a (List.mem_cons_self a t)),
        List.map_cons, List.sum_cons]

/-- The period-`p` sum of one (parent, category) fiber of the dataset. -/
def keyFiberSum (value : ExpenseRecord → ℚ) (df : List ExpenseRecord)
    (fmt : String) (periods : List String) (p : String)
    (k : Option String × String) : ℚ :=
  (((df.filter (fun r => assign_period r.doc_date fmt periods = p)).filter
      (fun r => (r.parent_category, r.category_name) = k)).map value).sum

lemma periodSum_fiber (value : ExpenseRecord → ℚ) (df : List ExpenseRecord)
    (fmt : String) (periods : List String) (p : String) (c : String)
    (par : Option String) :
    periodSum value (·.doc_date)
      (df.filter (fun r => r.category_name = c ∧ r.parent_category = par))
      fmt periods p = keyFiberSum value df fmt periods p (par, c) := by
  show (((df.filter (fun r =>
      r.category_name = c ∧ r.parent_category = par)).filter
        (fun r => assign_period r.doc_date fmt periods = p)).map value).sum = _
  rw [fiber_eq]
  rfl

/-- The distinct parent-category names of the dataset, in first-appearance
order (`parent_categories` in the source). -/
def parentCats (df : List ExpenseRecord) : List String :=
  uniques (df.filterMap (·.parent_category))

/-- The distinct subcategory names under one parent (`subcategories` in the
source). -/
def subcatsOf (df : List ExpenseRecord) (P : String) : List String :=
  uniques ((df.filter (fun r => r.parent_category = some P)).map (·.category_name))

/-- The distinct directly-posted category names that are not parents
(the orphan categories surviving the source's skip test). -/
def orphanCats (df : List ExpenseRecord) : List String :=
  (uniques ((df.filter
      (fun r => r.parent_category = none)).map (·.category_name))).filter
    (fun c => c ∉ uniques (df.filterMap (·.parent_category)))

/-- The keys of the subcategory blocks under one parent. -/
def subKeys (df : List ExpenseRecord) (P : String) :
    List (Option String × String) :=
  (subcatsOf df P).map (fun s => ((some P : Option String), s))

/-- The key list enumerating every block of the built hierarchy: one key
per (parent, subcategory) pair, one `(none, parent)` key per parent, and
one `(none, orphan)` key per orphan category. -/
def hierarchyKeys (df : List ExpenseRecord) : List (Option String × String) :=
  ((parentCats df).map (subKeys df)).flatten ++
    ((parentCats df).map (fun P => ((none : Option String), P)) ++
      (orphanCats df).map (fun C => ((none : Option String), C)))

lemma hierarchyKeys_nodup (df : List ExpenseRecord) :
    (hierarchyKeys df).Nodup := by
  unfold hierarchyKeys
  rw [List.nodup_append]
  refine ⟨?_, ?_, ?_⟩
  · rw [List.nodup_flatten]
    constructor
    · intro l hl
      rw [List.mem_map] at hl
      obtain ⟨P, _, rfl⟩ := hl
      unfold subKeys
      refine List.Nodup.map ?_ (nodup_uniques _)
      intro a b hab
      exact ((Prod.mk.injEq _ _ _ _).mp hab).2
    · rw [List.pairwise_map]
      refine List.Pairwise.imp ?_ (nodup_uniques _)
      intro P P' hPP x hx hx'
      unfold subKeys at hx hx'
      rw [List.mem_map] at hx hx'
      obtain ⟨s, _, rfl⟩ := hx
      obtain ⟨s', _, heq⟩ := hx'
      exact hPP (Option.some.inj ((Prod.mk.injEq _ _ _ _).mp heq).1).symm
  · rw [List.nodup_append]
    refine ⟨?_, ?_, ?_⟩
    · refine List.Nodup.map ?_ (nodup_uniques _)
      intro a b hab
      exact ((Prod.mk.injEq _ _ _ _).mp hab).2
    · refine List.Nodup.map ?_ ((nodup_uniques _).filter _)
      intro a b hab
      exact ((Prod.mk.injEq _ _ _ _).mp hab).2
    · intro x hx hx'
      rw [List.mem_map] at hx hx'
      obtain ⟨P, hP, rfl⟩ := hx
      obtain ⟨C, hC, heq⟩ := hx'
      unfold orphanCats at hC
      rw [List.mem_filter] at hC
      have hPC : C = P := ((Prod.mk.injEq _ _ _ _).mp heq).2
      subst hPC
      simp only [decide_eq_true_eq] at hC
      exact hC.2 hP
  · intro x hx hx'
    rw [List.mem_flatten] at hx
    obtain ⟨l, hl, hxl⟩ := hx
    rw [List.mem_map] at hl
    obtain ⟨P, _, rfl⟩ := hl
    unfold subKeys at hxl
    rw [List.mem_map] at hxl
    obtain ⟨s, _, rfl⟩ := hxl
    rw [List.mem_append] at hx'
    rcases hx' with hx' | hx' <;>
    · rw [List.mem_map] at hx'
      obtain ⟨c, _, heq⟩ := hx'
      exact Option.noConfusion ((Prod.mk.injEq _ _ _ _).mp heq).1

lemma hierarchyKeys_cover (df : List ExpenseRecord) :
    ∀ r ∈ df, (r.parent_category, r.category_name) ∈ hierarchyKeys df := by
  intro r hrdf
  unfold hierarchyKeys
  rw [List.mem_append]
  cases hpar : r.parent_category with
  | some P =>
    left
    rw [List.mem_flatten]
    refine ⟨subKeys df P, ?_, ?_⟩
    · rw [List.mem_map]
      refine ⟨P, ?_, rfl⟩
      unfold parentCats
      rw [mem_uniques]
      exact List.mem_filterMap.mpr ⟨r, hrdf, hpar⟩
    · unfold subKeys subcatsOf
      rw [List.mem_map]
      refine ⟨r.category_name, ?_, rfl⟩
      rw [mem_uniques]
      exact List.mem_map.mpr ⟨r, List.mem_filter.mpr ⟨hrdf, by simp [hpar]⟩, rfl⟩
  | none =>
    right
    rw [List.mem_append]
    by_cases hup : r.category_name ∈ uniques (df.filterMap (·.parent_category))
    · left
      rw [List.mem_map]
      refine ⟨r.category_name, ?_, rfl⟩
      unfold parentCats
      exact hup
    · right
      rw [List.mem_map]
      refine ⟨r.category_name, ?_, rfl⟩
      unfold orphanCats
      rw [List.mem_filter]
      refine ⟨?_, by simp [hup]⟩
      rw [mem_uniques]
      exact List.mem_map.mpr ⟨r, List.mem_filter.mpr ⟨hrdf, by simp [hpar]⟩, rfl⟩

lemma key_list_cover_sum (value : ExpenseRecord → ℚ)
    (df : List ExpenseRecord) (fmt : String) (periods : List String)
    (p : String) :
    ((hierarchyKeys df).map (keyFiberSum value df fmt periods p)).sum =
      periodSum value (·.doc_date) df fmt periods p := by
  show ((hierarchyKeys df).map (fun k =>
      (((df.filter (fun r =>
          assign_period r.doc_date fmt periods = p)).filter
        (fun a => (a.parent_category, a.category_name) = k)).map value).sum)).sum =
    ((df.filter (fun r =>
        assign_period r.doc_date fmt periods = p)).map value).sum
  refine sum_fiberwise
    (fun r : ExpenseRecord => (r.parent_category, r.category_name)) value
    (df.filter (fun r => assign_period r.doc_date fmt periods = p))
    (hierarchyKeys df) (hierarchyKeys_nodup df) ?_
  intro a ha
  exact hierarchyKeys_cover df a (List.mem_filter.mp ha).1

lemma hierarchyKeys_sum_split (value : ExpenseRecord → ℚ)
    (df : List ExpenseRecord) (fmt : String) (periods : List String)
    (p : String) :
    ((hierarchyKeys df).map (keyFiberSum value df fmt periods p)).sum =
      ((parentCats df).map (fun P =>
        ((subcatsOf df P).map
          (fun s => keyFiberSum value df fmt periods p (some P, s))).sum)).sum +
      (((parentCats df).map
        (fun P => keyFiberSum value df fmt periods p (none, P))).sum +
      ((orphanCats df).map
        (fun C => keyFiberSum value df fmt periods p (none, C))).sum) := by
  unfold hierarchyKeys
  rw [List.map_append, List.sum_append, List.map_append, List.sum_append]
  rw [List.map_flatten, List.sum_flatten, List.map_map, List.map_map,
      List.map_map, List.map_map]
  congr 1
  refine congrArg List.sum (List.map_congr_left ?_)
  intro P _
  simp only [Function.comp_apply]
  unfold subKeys
  rw [List.map_map]
  rfl

/-- Under the no-name-collision hypothesis `H` (no directly-posted
category that is not itself a parent shares its name with a subcategory),
the flat per-period total of a built section equals the sum of all its
subcategory and `direct` blocks. -/
lemma section_hierarchy_eq (value : ExpenseRecord → ℚ)
    (df : List ExpenseRecord) (fmt : String) (periods : List String)
    (p : String) (hp : p ∈ periods)
    (H : ∀ C : String,
      C ∈ (df.filter (fun r => r.parent_category = none)).map (·.category_name) →
      C ∉ df.filterMap (·.parent_category) →
      ∀ r ∈ df, r.category_name = C → r.parent_category = none) :
    hierarchyTotal (build_section_core value df fmt periods) p =
      blockValue (build_section_core value df fmt periods).total p := by
  by_cases hne : df.isEmpty
  · have hdf := eq_nil_of_isEmpty hne
    subst hdf
    rw [build_section_core_eq_empty]
    unfold hierarchyTotal blockValue
    rw [lookup_map_self _ _ _ hp]
    simp
  · have hne' : df.isEmpty = false := by
      cases h : df.isEmpty
      · rfl
      · exact absurd h hne
    have hTot : (build_section_core value df fmt periods).total =
        periodFillBy value (·.doc_date) df fmt periods := by
      rw [build_section_core_eq_nonempty value df fmt periods hne']
    have hL : hierarchyTotal (build_section_core value df fmt periods) p =
        ((parentCats df).map (fun P =>
          ((subcatsOf df P).map
            (fun s => keyFiberSum value df fmt periods p (some P, s))).sum +
          keyFiberSum value df fmt periods p (none, P))).sum +
        ((orphanCats df).map
          (fun C => keyFiberSum value df fmt periods p (none, C))).sum := by
      unfold hierarchyTotal parentCats subcatsOf orphanCats
      rw [build_section_core_eq_nonempty value df fmt periods hne']
      simp only [List.map_append, List.sum_append, List.map_map]
      congr 1
      · refine congrArg List.sum (List.map_congr_left ?_)
        intro P hP
        simp only [Function.comp_apply]
        congr 1
        · rw [List.map_map]
          refine congrArg List.sum (List.map_congr_left ?_)
          intro s hs
          simp only [Function.comp_apply]
          rw [blockValue_fill _ _ _ _ _ _ hp]
          exact periodSum_fiber value df fmt periods p s (some P)
        · by_cases hd : (df.filter (fun r =>
              r.category_name = P ∧ r.parent_category = none)).isEmpty
          · rw [if_pos hd]
            have h0 : keyFiberSum value df fmt periods p (none, P) = 0 := by
              unfold keyFiberSum
              rw [← fiber_eq df fmt periods p P none, eq_nil_of_isEmpty hd]
              rfl
            rw [h0]
          · rw [if_neg hd]
            show blockValue (periodFillBy value (·.doc_date)
              (df.filter (fun r =>
                r.category_name = P ∧ r.parent_category = none))
              fmt periods) p = keyFiberSum value df fmt periods p (none, P)
            rw [blockValue_fill _ _ _ _ _ _ hp]
            exact periodSum_fiber value df fmt periods p P none
      · refine congrArg List.sum (List.map_congr_left ?_)
        intro C hC
        simp only [Function.comp_apply]
        rw [List.mem_filter] at hC
        obtain ⟨hC1, hC2⟩ := hC
        rw [mem_uniques] at hC1
        simp only [decide_eq_true_eq] at hC2
        rw [mem_uniques] at hC2
        have hfix : df.filter (fun r => r.category_name = C) =
            df.filter (fun r =>
              r.category_name = C ∧ r.parent_category = none) := by
          refine List.filter_congr ?_
          intro r hr
          by_cases h1 : r.category_name = C
          · have hnone := H C hC1 hC2 r hr h1
            simp [h1, hnone]
          · simp [h1]
        show (([] : List (String × List (String × ℚ))).map
            (fun sub => blockValue sub.2 p)).sum +
          blockValue (periodFillBy value (·.doc_date)
            (df.filter (fun r => r.category_name = C)) fmt periods) p =
          keyFiberSum value df fmt periods p (none, C)
        rw [List.map_nil, List.sum_nil, zero_add,
            blockValue_fill _ _ _ _ _ _ hp, hfix]
        exact periodSum_fiber value df fmt periods p C none
    rw [hL, hTot, blockValue_fill _ _ _ _ _ _ hp, List.sum_map_add,
        ← key_list_cover_sum value df fmt periods p,
        hierarchyKeys_sum_split value df fmt periods p, add_assoc]

/-- A dataset in which the root category "X" shares its name with a
subcategory of "P": the subcategory record is counted both under P's
subcategories and inside the orphan entry for "X". -/
def collisionRecords : List ExpenseRecord :=
  [ { doc_date := ⟨2024, 9, 10⟩, amount := 100, grand_total := 107,
      etype := .COGS, location := "Bkk", category_name := "X",
      parent_category := some "P" },
    { doc_date := ⟨2024, 9, 20⟩, amount := 40, grand_total := 43,
      etype := .COGS, location := "Bkk", category_name := "X",
      parent_category := none } ]

/-- Counterexample to C10 as stated: on `collisionRecords` the flat total
is 140 but the hierarchy blocks sum to 240 (the record on subcategory "X"
of "P" is double counted in the orphan entry for "X", because the orphan
fetch at pnl.py line 363 selects by category name only). -/
theorem C10_counterexample :
    blockValue (build_expense_section collisionRecords "yearly"
        ["Total"]).total "Total" = 140 ∧
    hierarchyTotal (build_expense_section collisionRecords "yearly"
        ["Total"]) "Total" = 240 ∧
    blockValue (build_expense_section collisionRecords "yearly"
        ["Total"]).total "Total" ≠
      hierarchyTotal (build_expense_section collisionRecords "yearly"
        ["Total"]) "Total" := by
  have h1 : blockValue (build_expense_section collisionRecords "yearly"
      ["Total"]).total "Total" = 140 := by
    simp [build_expense_section, build_section_core, collisionRecords,
      uniques, periodFillBy, assign_period, List.lookup, blockValue]
    try norm_num
  have h2 : hierarchyTotal (build_expense_section collisionRecords "yearly"
      ["Total"]) "Total" = 240 := by
    simp [build_expense_section, build_section_core, collisionRecords,
      uniques, periodFillBy, assign_period, List.lookup, blockValue,
      hierarchyTotal]
    try norm_num
  refine ⟨h1, h2, ?_⟩
  rw [h1, h2]
  norm_num

/-- C10 (amended): provided no directly-posted category name that is not
itself a parent name is also used as the name of a record with a non-null
parent, each expense record is counted in exactly one block of the
hierarchy, so for every planned period the flat total equals the sum over
all top-level entries of their subcategory values plus their `direct`
values — in the P&L section builder and in the cashflow one alike. -/
theorem C10_total_partition (df : List ExpenseRecord) (fmt : String)
    (periods : List String) (p : String) (hp : p ∈ periods)
    (H : ∀ C : String,
      C ∈ (df.filter (fun r => r.parent_category = none)).map (·.category_name) →
      C ∉ df.filterMap (·.parent_category) →
      ∀ r ∈ df, r.category_name = C → r.parent_category = none) :
    blockValue (build_expense_section df fmt periods).total p =
      hierarchyTotal (build_expense_section df fmt periods) p ∧
    blockValue (build_outflows_section df fmt periods).total p =
      hierarchyTotal (build_outflows_section df fmt periods) p :=
  ⟨(section_hierarchy_eq (·.amount) df fmt periods p hp H).symm,
   (section_hierarchy_eq (·.grand_total) df fmt periods p hp H).symm⟩

/-- Witness for the amended C10 on the collision-free example dataset. -/
theorem C10_total_partition_witness :
    blockValue (build_expense_section hierarchyExampleRecords "yearly"
        ["Total"]).total "Total" =
      hierarchyTotal (build_expense_section hierarchyExampleRecords "yearly"
        ["Total"]) "Total" ∧
    blockValue (build_outflows_section hierarchyExampleRecords "yearly"
        ["Total"]).total "Total" =
      hierarchyTotal (build_outflows_section hierarchyExampleRecords "yearly"
        ["Total"]) "Total" :=
  C10_total_partition hierarchyExampleRecords "yearly" ["Total"] "Total"
    (by decide)
    (by
      intro C hC hC2
      simp [hierarchyExampleRecords] at hC
      subst hC
      exact absurd (by decide) hC2)

end PharmaBplan
